import Mathlib

/-!
Verification of the PyRDP connection-data and dynamic-channel codec layer.

The development shallowly embeds, in Lean, the byte-level parsers and writers of
  pyrdp/parser/rdp/connection.py
  pyrdp/parser/rdp/virtual_channel/dynamic_channel.py
  pyrdp/pdu/rdp/virtual_channel/dynamic_channel.py
Byte streams are lists of naturals (each < 256).  Python exceptions become an
error type; the strict-stream EOFError used by optional-field cascades is a
distinguished error value.  The primitive I/O layer (StrictStream, Uint8/16/32LE,
UTF-16 codec) and the enum tables are not part of the given sources; they are
modelled from the spec where noted.
-/

namespace PyRdp

abbrev Bytes := List Nat

/-- Kinds of Python exceptions raised by the codec layer. -/
inductive PErr where
  /-- EOFError raised by StrictStream when a read cannot be satisfied. -/
  | eof
  /-- struct.error from packing/unpacking on a plain stream. -/
  | structErr
  /-- ParsingError (length-mismatch style failures and write validation). -/
  | parsingErr
  /-- UnknownPDUTypeError for an unregistered block tag. -/
  | unknownPdu
  /-- ExploitError for the BlueKeep signature. -/
  | exploit
  /-- ValueError from an enum constructor rejecting a value. -/
  | valueErr
  /-- NotImplementedError (unhandled certificate type, unhandled write variant). -/
  | notImplErr
  /-- UnicodeDecodeError from bytes.decode(). -/
  | unicodeErr
  /-- AttributeError, e.g. encoding a None text field. -/
  | attributeErr
  deriving DecidableEq

deriving instance DecidableEq for Except

/-- Sequencing of fallible computations, mirroring Python exception propagation. -/
def eBind (x : Except PErr α) (f : α → Except PErr β) : Except PErr β :=
  match x with
  | .error e => .error e
  | .ok a => f a

/-- Raise the given error when the condition fails (models an enum constructor check). -/
def ensure (b : Bool) (e : PErr) : Except PErr Unit :=
  if b then .ok () else .error e

/-! ### Primitive I/O layer

Modelled from the spec: fixed-width little-endian integer encode/decode over a
cursor, a UTF-16LE text codec, and a strict read mode that raises a
distinguished end-of-input error on a short read.  The cursor is made explicit:
a reader takes the remaining bytes and returns the value plus the rest. -/

/-- The little-endian bytes of a 16-bit value (struct.pack of a value < 2^16). -/
def u16b (v : Nat) : Bytes := [v % 256, v / 256 % 256]

/-- The little-endian bytes of a 32-bit value (struct.pack of a value < 2^32). -/
def u32b (v : Nat) : Bytes := [v % 256, v / 256 % 256, v / 65536 % 256, v / 16777216 % 256]

/-- Uint8.pack: struct.error when out of range. -/
def packU8 (v : Nat) : Except PErr Bytes :=
  if v < 256 then .ok [v] else .error .structErr

/-- Uint16LE.pack: struct.error when out of range. -/
def packU16 (v : Nat) : Except PErr Bytes :=
  if v < 65536 then .ok (u16b v) else .error .structErr

/-- Uint32LE.pack: struct.error when out of range. -/
def packU32 (v : Nat) : Except PErr Bytes :=
  if v < 4294967296 then .ok (u32b v) else .error .structErr

/-- Packing an optional 8-bit field: struct.pack(None) raises struct.error. -/
def packOpt8 (v : Option Nat) : Except PErr Bytes :=
  match v with
  | none => .error .structErr
  | some v => packU8 v

/-- Packing an optional 16-bit field: struct.pack(None) raises struct.error. -/
def packOpt16 (v : Option Nat) : Except PErr Bytes :=
  match v with
  | none => .error .structErr
  | some v => packU16 v

/-- Packing an optional 32-bit field: struct.pack(None) raises struct.error. -/
def packOpt32 (v : Option Nat) : Except PErr Bytes :=
  match v with
  | none => .error .structErr
  | some v => packU32 v

/-- Uint8.unpack on a plain BytesIO: struct.error on a short read. -/
def readU8p (s : Bytes) : Except PErr (Nat × Bytes) :=
  match s with
  | b0 :: rest => .ok (b0, rest)
  | _ => .error .structErr

/-- Uint16LE.unpack on a plain BytesIO: struct.error on a short read. -/
def readU16p (s : Bytes) : Except PErr (Nat × Bytes) :=
  match s with
  | b0 :: b1 :: rest => .ok (b0 + 256 * b1, rest)
  | _ => .error .structErr

/-- Uint32LE.unpack on a plain BytesIO: struct.error on a short read. -/
def readU32p (s : Bytes) : Except PErr (Nat × Bytes) :=
  match s with
  | b0 :: b1 :: b2 :: b3 :: rest =>
      .ok (b0 + 256 * b1 + 65536 * b2 + 16777216 * b3, rest)
  | _ => .error .structErr

/-- Uint8.unpack through a StrictStream: EOFError on a short read. -/
def readU8s (s : Bytes) : Except PErr (Nat × Bytes) :=
  match s with
  | b0 :: rest => .ok (b0, rest)
  | _ => .error .eof

/-- Uint16LE.unpack through a StrictStream: EOFError on a short read. -/
def readU16s (s : Bytes) : Except PErr (Nat × Bytes) :=
  match s with
  | b0 :: b1 :: rest => .ok (b0 + 256 * b1, rest)
  | _ => .error .eof

/-- Uint32LE.unpack through a StrictStream: EOFError on a short read. -/
def readU32s (s : Bytes) : Except PErr (Nat × Bytes) :=
  match s with
  | b0 :: b1 :: b2 :: b3 :: rest =>
      .ok (b0 + 256 * b1 + 65536 * b2 + 16777216 * b3, rest)
  | _ => .error .eof

/-- StrictStream.read(n): EOFError unless n bytes are available (read(0) succeeds). -/
def readStrict (n : Nat) (s : Bytes) : Except PErr (Bytes × Bytes) :=
  if s.length < n then .error .eof else .ok (s.take n, s.drop n)

/-- BytesIO.read(n): a short read returns what is available; a negative n reads
everything that remains. -/
def readAvail (n : Int) (s : Bytes) : Bytes × Bytes :=
  if n < 0 then (s, []) else (s.take n.toNat, s.drop n.toNat)

/-- bytes.ljust(n, zero) followed by truncation to n bytes. -/
def ljustTrunc (n : Nat) (l : Bytes) : Bytes :=
  (l ++ List.replicate (n - l.length) 0).take n

/-- Modelled from the spec: encodeText for the fixed two-byte-per-character
UTF-16LE codec (characters outside the basic plane are out of scope for this
layer and are truncated to their low 16 bits). -/
def encodeUTF16LE (t : String) : Bytes :=
  t.data.flatMap fun c => [c.toNat % 256, c.toNat / 256 % 256]

/-- The 16-bit little-endian units of a byte string (an odd trailing byte is dropped). -/
def utf16Units : Bytes → List Nat
  | b0 :: b1 :: rest => (b0 + 256 * b1) :: utf16Units rest
  | _ => []

/-- Modelled from the spec: decodeText for the UTF-16LE codec, with invalid
units dropped rather than raised (the decode never fails). -/
def decodeUTF16LE (bs : Bytes) : String :=
  String.mk ((utf16Units bs).filterMap fun v =>
    if v < 55296 ∨ (57343 < v ∧ v < 1114112) then some (Char.ofNat v) else none)

/-- Strict UTF-8 decoding of a byte string, as Python bytes.decode():
UnicodeDecodeError on any malformed sequence (continuation errors, overlong
forms, surrogates, out-of-range code points).  The fuel argument keeps the
recursion structural; it is initialized to the byte count, which one-or-more
bytes consumed per step can never exceed. -/
def utf8DecodeGo : Nat → Bytes → List Char → Except PErr (List Char)
  | _, [], acc => .ok acc.reverse
  | 0, _ :: _, _ => .error .unicodeErr
  | fuel + 1, b :: rest, acc =>
    if b < 128 then utf8DecodeGo fuel rest (Char.ofNat b :: acc)
    else if b < 194 then .error .unicodeErr
    else if b < 224 then
      match rest with
      | b1 :: r =>
        if 128 ≤ b1 ∧ b1 < 192 then
          utf8DecodeGo fuel r (Char.ofNat ((b - 192) * 64 + (b1 - 128)) :: acc)
        else .error .unicodeErr
      | [] => .error .unicodeErr
    else if b < 240 then
      match rest with
      | b1 :: b2 :: r =>
        if (128 ≤ b1 ∧ b1 < 192) ∧ (128 ≤ b2 ∧ b2 < 192) ∧
            (b ≠ 224 ∨ 160 ≤ b1) ∧ (b ≠ 237 ∨ b1 < 160) then
          utf8DecodeGo fuel r (Char.ofNat ((b - 224) * 4096 + (b1 - 128) * 64 + (b2 - 128)) :: acc)
        else .error .unicodeErr
      | _ => .error .unicodeErr
    else if b < 245 then
      match rest with
      | b1 :: b2 :: b3 :: r =>
        if (128 ≤ b1 ∧ b1 < 192) ∧ (128 ≤ b2 ∧ b2 < 192) ∧ (128 ≤ b3 ∧ b3 < 192) ∧
            (b ≠ 240 ∨ 144 ≤ b1) ∧ (b ≠ 244 ∨ b1 < 144) then
          utf8DecodeGo fuel r
            (Char.ofNat ((b - 240) * 262144 + (b1 - 128) * 4096 + (b2 - 128) * 64 + (b3 - 128)) :: acc)
        else .error .unicodeErr
      | _ => .error .unicodeErr
    else .error .unicodeErr

/-- bytes.decode() with the default strict UTF-8 codec. -/
def utf8Decode (bs : Bytes) : Except PErr String :=
  match utf8DecodeGo bs.length bs [] with
  | .error e => .error e
  | .ok cs => .ok (String.mk cs)

/-- str.encode() with the default UTF-8 codec (total for unicode scalar values). -/
def utf8EncodeChar (c : Char) : Bytes :=
  let v := c.toNat
  if v < 128 then [v]
  else if v < 2048 then [192 + v / 64, 128 + v % 64]
  else if v < 65536 then [224 + v / 4096, 128 + v / 64 % 64, 128 + v % 64]
  else [240 + v / 262144, 128 + v / 4096 % 64, 128 + v / 64 % 64, 128 + v % 64]

/-- str.encode() of a whole string. -/
def utf8Encode (t : String) : Bytes :=
  t.data.flatMap utf8EncodeChar

/-- bytes.strip(NUL): remove leading and trailing zero bytes. -/
def stripNulls (l : Bytes) : Bytes :=
  ((l.dropWhile (· == 0)).reverse.dropWhile (· == 0)).reverse

/-- bytes.upper() on a single byte: ASCII lowercase letters map to uppercase. -/
def byteUpper (b : Nat) : Nat :=
  if 97 ≤ b ∧ b ≤ 122 then b - 32 else b

/-! ### Enum tables

The enum modules are not part of the given sources; memberships are modelled
from the spec and the MS-RDPBCGR / MS-RDPEDYC field descriptions it follows. -/

/-- Modelled from the spec: RDPVersion enum membership (the spec names 0x00080004). -/
def isRDPVersion (v : Nat) : Bool :=
  v = 524289 ∨ v = 524292 ∨ v = 524293 ∨ v = 524294 ∨ v = 524295 ∨
  v = 524296 ∨ v = 524297 ∨ v = 524298 ∨ v = 524299 ∨ v = 524300

/-- Modelled from the spec: ColorDepth enum membership (the spec names 0xCA01). -/
def isColorDepth (v : Nat) : Bool :=
  v = 51712 ∨ v = 51713 ∨ v = 51714 ∨ v = 51715 ∨ v = 51716

/-- Modelled from the spec: ConnectionType enum membership. -/
def isConnectionType (v : Nat) : Bool :=
  1 ≤ v ∧ v ≤ 7

/-- Modelled from the spec: DesktopOrientation enum membership. -/
def isDesktopOrientation (v : Nat) : Bool :=
  v = 0 ∨ v = 90 ∨ v = 180 ∨ v = 270

/-- Modelled from the spec: EncryptionMethod enum membership. -/
def isEncryptionMethod (v : Nat) : Bool :=
  v = 0 ∨ v = 1 ∨ v = 2 ∨ v = 8 ∨ v = 16

/-- Modelled from the spec: EncryptionLevel enum membership. -/
def isEncryptionLevel (v : Nat) : Bool :=
  v ≤ 4

/-- Modelled from the spec: the Connection Data TLV tag for each client block type. -/
def tagClientCore : Nat := 49153
def tagClientSecurity : Nat := 49154
def tagClientNetwork : Nat := 49155
def tagClientCluster : Nat := 49156
def tagClientMonitor : Nat := 49157
def tagClientMsgChannel : Nat := 49158
def tagClientMonitorEx : Nat := 49160
def tagClientMultitransport : Nat := 49162
def tagClientUnused1 : Nat := 49164

/-- Modelled from the spec: the Connection Data TLV tag for each server block type. -/
def tagServerCore : Nat := 3073
def tagServerSecurity : Nat := 3074
def tagServerNetwork : Nat := 3075
def tagServerMsgChannel : Nat := 3076
def tagServerMultitransport : Nat := 3080

/-- Modelled from the spec: ServerCertificateType.PROPRIETARY. -/
def certTypeProprietary : Nat := 1

/-! ### Client Connection Data: data model -/

/-- ClientCoreData: 11 mandatory fields followed by the cascading optional group
of 14 fields, each absent unless populated by the cascade. -/
structure ClientCoreData where
  version : Nat
  desktopWidth : Nat
  desktopHeight : Nat
  colorDepth : Nat
  sasSequence : Nat
  keyboardLayout : Nat
  clientBuild : Nat
  clientName : String
  keyboardType : Nat
  keyboardSubType : Nat
  keyboardFunctionKey : Nat
  imeFileName : Bytes
  postBeta2ColorDepth : Option Nat := none
  clientProductId : Option Nat := none
  serialNumber : Option Nat := none
  highColorDepth : Option Nat := none
  supportedColorDepths : Option Nat := none
  earlyCapabilityFlags : Option Nat := none
  clientDigProductId : Option String := none
  connectionType : Option Nat := none
  serverSelectedProtocol : Option Nat := none
  desktopPhysicalWidth : Option Nat := none
  desktopPhysicalHeight : Option Nat := none
  desktopOrientation : Option Nat := none
  desktopScaleFactor : Option Nat := none
  deviceScaleFactor : Option Nat := none
  deriving DecidableEq

structure ClientSecurityData where
  encryptionMethods : Nat
  extEncryptionMethods : Nat
  deriving DecidableEq

structure ClientChannelDefinition where
  name : String
  options : Nat
  deriving DecidableEq

structure ClientNetworkData where
  channelDefinitions : List ClientChannelDefinition
  deriving DecidableEq

structure ClientClusterData where
  flags : Nat
  redirectedSessionID : Nat
  deriving DecidableEq

structure ClientMonitorAttribute where
  physicalWidth : Nat
  physicalHeight : Nat
  orientation : Nat
  desktopScaleFactor : Nat
  deviceScaleFactor : Nat
  deriving DecidableEq

structure ClientMonitorData where
  flags : Nat
  monitorAttributeSize : Nat
  monitorCount : Nat
  monitorAttributes : List ClientMonitorAttribute
  deriving DecidableEq

structure ClientMessageChannelData where
  flags : Nat
  deriving DecidableEq

structure ClientMonitorExData where
  flags : Nat
  monitorAttributeSize : Nat
  monitorCount : Nat
  monitorAttributes : List ClientMonitorAttribute
  deriving DecidableEq

structure ClientMultitransportData where
  flags : Nat
  deriving DecidableEq

structure ClientUnused1Data where
  pad2Octets : Nat
  deriving DecidableEq

/-- ClientDataPDU: the aggregate of up to nine optional sub-blocks. -/
structure ClientDataPDU where
  coreData : Option ClientCoreData := none
  securityData : Option ClientSecurityData := none
  networkData : Option ClientNetworkData := none
  clusterData : Option ClientClusterData := none
  monitorData : Option ClientMonitorData := none
  messageChannelData : Option ClientMessageChannelData := none
  monitorExData : Option ClientMonitorExData := none
  multitransportData : Option ClientMultitransportData := none
  unused1Data : Option ClientUnused1Data := none
  deriving DecidableEq

/-! ### Client core parser

parseClientCoreData wraps its substream in a StrictStream; the mandatory fields
propagate EOFError, and the optional cascade catches EOFError (and only
EOFError), stopping the cascade at the point reached.  The cascade is split
into one definition per optional field, each modelling one statement of the
try-block: a strict-read failure returns the core built so far, an enum
rejection propagates ValueError. -/

def parseCoreOpt14 (s : Bytes) (core : ClientCoreData) : Except PErr ClientCoreData :=
  match readU32s s with
  | .error _ => .ok core
  | .ok (v, _) => .ok { core with deviceScaleFactor := some v }

def parseCoreOpt13 (s : Bytes) (core : ClientCoreData) : Except PErr ClientCoreData :=
  match readU32s s with
  | .error _ => .ok core
  | .ok (v, s) => parseCoreOpt14 s { core with desktopScaleFactor := some v }

def parseCoreOpt12 (s : Bytes) (core : ClientCoreData) : Except PErr ClientCoreData :=
  match readU16s s with
  | .error _ => .ok core
  | .ok (v, s) =>
    if isDesktopOrientation v then parseCoreOpt13 s { core with desktopOrientation := some v }
    else .error .valueErr

def parseCoreOpt11 (s : Bytes) (core : ClientCoreData) : Except PErr ClientCoreData :=
  match readU32s s with
  | .error _ => .ok core
  | .ok (v, s) => parseCoreOpt12 s { core with desktopPhysicalHeight := some v }

def parseCoreOpt10 (s : Bytes) (core : ClientCoreData) : Except PErr ClientCoreData :=
  match readU32s s with
  | .error _ => .ok core
  | .ok (v, s) => parseCoreOpt11 s { core with desktopPhysicalWidth := some v }

def parseCoreOpt9 (s : Bytes) (core : ClientCoreData) : Except PErr ClientCoreData :=
  match readU32s s with
  | .error _ => .ok core
  | .ok (v, s) => parseCoreOpt10 s { core with serverSelectedProtocol := some v }

/-- connectionType: the enum check precedes the assignment; the one-byte pad
that follows is read after the assignment, so EOF at the pad keeps the field. -/
def parseCoreOpt8 (s : Bytes) (core : ClientCoreData) : Except PErr ClientCoreData :=
  match readU8s s with
  | .error _ => .ok core
  | .ok (v, s) =>
    if isConnectionType v then
      let core := { core with connectionType := some v }
      match readStrict 1 s with
      | .error _ => .ok core
      | .ok (_, s) => parseCoreOpt9 s core
    else .error .valueErr

def parseCoreOpt7 (s : Bytes) (core : ClientCoreData) : Except PErr ClientCoreData :=
  match readStrict 64 s with
  | .error _ => .ok core
  | .ok (bs, s) => parseCoreOpt8 s { core with clientDigProductId := some (decodeUTF16LE bs) }

def parseCoreOpt6 (s : Bytes) (core : ClientCoreData) : Except PErr ClientCoreData :=
  match readU16s s with
  | .error _ => .ok core
  | .ok (v, s) => parseCoreOpt7 s { core with earlyCapabilityFlags := some v }

def parseCoreOpt5 (s : Bytes) (core : ClientCoreData) : Except PErr ClientCoreData :=
  match readU16s s with
  | .error _ => .ok core
  | .ok (v, s) => parseCoreOpt6 s { core with supportedColorDepths := some v }

def parseCoreOpt4 (s : Bytes) (core : ClientCoreData) : Except PErr ClientCoreData :=
  match readU16s s with
  | .error _ => .ok core
  | .ok (v, s) => parseCoreOpt5 s { core with highColorDepth := some v }

def parseCoreOpt3 (s : Bytes) (core : ClientCoreData) : Except PErr ClientCoreData :=
  match readU32s s with
  | .error _ => .ok core
  | .ok (v, s) => parseCoreOpt4 s { core with serialNumber := some v }

def parseCoreOpt2 (s : Bytes) (core : ClientCoreData) : Except PErr ClientCoreData :=
  match readU16s s with
  | .error _ => .ok core
  | .ok (v, s) => parseCoreOpt3 s { core with clientProductId := some v }

def parseCoreOpt1 (s : Bytes) (core : ClientCoreData) : Except PErr ClientCoreData :=
  match readU16s s with
  | .error _ => .ok core
  | .ok (v, s) => parseCoreOpt2 s { core with postBeta2ColorDepth := some v }

/-- The 128-byte mandatory part of the client core block, through a StrictStream. -/
def parseCoreMandatory (s : Bytes) : Except PErr (ClientCoreData × Bytes) :=
  eBind (readU32s s) fun (version, s) =>
  eBind (ensure (isRDPVersion version) .valueErr) fun _ =>
  eBind (readU16s s) fun (desktopWidth, s) =>
  eBind (readU16s s) fun (desktopHeight, s) =>
  eBind (readU16s s) fun (colorDepth, s) =>
  eBind (ensure (isColorDepth colorDepth) .valueErr) fun _ =>
  eBind (readU16s s) fun (sasSequence, s) =>
  eBind (readU32s s) fun (keyboardLayout, s) =>
  eBind (readU32s s) fun (clientBuild, s) =>
  eBind (readStrict 32 s) fun (nameBytes, s) =>
  eBind (readU32s s) fun (keyboardType, s) =>
  eBind (readU32s s) fun (keyboardSubType, s) =>
  eBind (readU32s s) fun (keyboardFunctionKey, s) =>
  eBind (readStrict 64 s) fun (imeFileName, s) =>
  .ok ({ version, desktopWidth, desktopHeight, colorDepth, sasSequence, keyboardLayout,
         clientBuild, clientName := decodeUTF16LE nameBytes, keyboardType, keyboardSubType,
         keyboardFunctionKey, imeFileName }, s)

def parseClientCoreData (s : Bytes) : Except PErr ClientCoreData :=
  eBind (parseCoreMandatory s) fun (core, s) => parseCoreOpt1 s core

def parseClientSecurityData (s : Bytes) : Except PErr ClientSecurityData :=
  eBind (readU32p s) fun (encryptionMethods, s) =>
  eBind (readU32p s) fun (extEncryptionMethods, _) =>
  .ok ⟨encryptionMethods, extEncryptionMethods⟩

/-- detectBlueKeepScan: case-insensitive search for the reserved legacy channel
name in the raw sub-block bytes. -/
def msT120 : Bytes := [77, 83, 95, 84, 49, 50, 48]

/-- Whether the second list starts with the first. -/
def bytesStartWith : Bytes → Bytes → Bool
  | [], _ => true
  | _ :: _, [] => false
  | p :: ps, x :: xs => p == x && bytesStartWith ps xs

/-- Whether the pattern occurs as a contiguous run of the second list
(the Python bytes containment test). -/
def bytesContain (pat : Bytes) : Bytes → Bool
  | [] => bytesStartWith pat []
  | x :: xs => bytesStartWith pat (x :: xs) || bytesContain pat xs

def detectBlueKeepScan (data : Bytes) : Bool :=
  bytesContain msT120 (data.map byteUpper)

/-- One channel definition per loop iteration: 8 raw name bytes (plain read),
NUL-stripped and decoded as UTF-8, then a 32-bit option mask. -/
def readChannelDefs : Nat → Bytes → Except PErr (List ClientChannelDefinition)
  | 0, _ => .ok []
  | n + 1, s =>
    let nameBytes := s.take 8
    let s := s.drop 8
    eBind (utf8Decode (stripNulls nameBytes)) fun name =>
    eBind (readU32p s) fun (options, s) =>
    eBind (readChannelDefs n s) fun rest =>
    .ok (⟨name, options⟩ :: rest)

def parseClientNetworkData (s0 : Bytes) : Except PErr ClientNetworkData :=
  if detectBlueKeepScan s0 then .error .exploit
  else
    eBind (readU32p s0) fun (channelCount, s) =>
    if (s0.drop 4).length ≠ channelCount * 12 then .error .parsingErr
    else
      eBind (readChannelDefs channelCount s) fun defs =>
      .ok ⟨defs⟩

def parseClientClusterData (s : Bytes) : Except PErr ClientClusterData :=
  eBind (readU32p s) fun (flags, s) =>
  eBind (readU32p s) fun (redirectedSessionID, _) =>
  .ok ⟨flags, redirectedSessionID⟩

def parseClientMonitorAttribute (s : Bytes) : Except PErr (ClientMonitorAttribute × Bytes) :=
  eBind (readU32p s) fun (physicalWidth, s) =>
  eBind (readU32p s) fun (physicalHeight, s) =>
  eBind (readU32p s) fun (orientation, s) =>
  eBind (readU32p s) fun (desktopScaleFactor, s) =>
  eBind (readU32p s) fun (deviceScaleFactor, s) =>
  .ok (⟨physicalWidth, physicalHeight, orientation, desktopScaleFactor, deviceScaleFactor⟩, s)

def parseMonitorAttrs : Nat → Bytes → Except PErr (List ClientMonitorAttribute × Bytes)
  | 0, s => .ok ([], s)
  | n + 1, s =>
    eBind (parseClientMonitorAttribute s) fun (a, s) =>
    eBind (parseMonitorAttrs n s) fun (rest, s) =>
    .ok (a :: rest, s)

def parseClientMonitorData (s : Bytes) : Except PErr ClientMonitorData :=
  eBind (readU32p s) fun (flags, s) =>
  eBind (readU32p s) fun (monitorAttributeSize, s) =>
  eBind (readU32p s) fun (monitorCount, s) =>
  eBind (parseMonitorAttrs monitorCount s) fun (monitorAttributes, _) =>
  .ok ⟨flags, monitorAttributeSize, monitorCount, monitorAttributes⟩

def parseClientMessageChannelData (s : Bytes) : Except PErr ClientMessageChannelData :=
  eBind (readU32p s) fun (flags, _) => .ok ⟨flags⟩

def parseClientMonitorExData (s : Bytes) : Except PErr ClientMonitorExData :=
  eBind (readU32p s) fun (flags, s) =>
  eBind (readU32p s) fun (monitorAttributeSize, s) =>
  eBind (readU32p s) fun (monitorCount, s) =>
  eBind (parseMonitorAttrs monitorCount s) fun (monitorAttributes, _) =>
  .ok ⟨flags, monitorAttributeSize, monitorCount, monitorAttributes⟩

def parseClientMultitransportData (s : Bytes) : Except PErr ClientMultitransportData :=
  eBind (readU32p s) fun (flags, _) => .ok ⟨flags⟩

def parseClientUnused1Data (s : Bytes) : Except PErr ClientUnused1Data :=
  eBind (readU16p s) fun (pad2Octets, _) => .ok ⟨pad2Octets⟩

/-! ### Client Connection Data: outer TLV loop -/

inductive ClientBlock where
  | core (c : ClientCoreData)
  | security (c : ClientSecurityData)
  | network (c : ClientNetworkData)
  | cluster (c : ClientClusterData)
  | monitor (c : ClientMonitorData)
  | messageChannel (c : ClientMessageChannelData)
  | monitorEx (c : ClientMonitorExData)
  | multitransport (c : ClientMultitransportData)
  | unused1 (c : ClientUnused1Data)
  deriving DecidableEq

/-- The registered handler for a client block tag, applied to the sub-block payload. -/
def clientDispatch (header : Nat) (data : Bytes) : Except PErr ClientBlock :=
  if header = tagClientCore then eBind (parseClientCoreData data) fun c => .ok (.core c)
  else if header = tagClientSecurity then eBind (parseClientSecurityData data) fun c => .ok (.security c)
  else if header = tagClientNetwork then eBind (parseClientNetworkData data) fun c => .ok (.network c)
  else if header = tagClientCluster then eBind (parseClientClusterData data) fun c => .ok (.cluster c)
  else if header = tagClientMonitor then eBind (parseClientMonitorData data) fun c => .ok (.monitor c)
  else if header = tagClientMsgChannel then eBind (parseClientMessageChannelData data) fun c => .ok (.messageChannel c)
  else if header = tagClientMonitorEx then eBind (parseClientMonitorExData data) fun c => .ok (.monitorEx c)
  else if header = tagClientMultitransport then eBind (parseClientMultitransportData data) fun c => .ok (.multitransport c)
  else if header = tagClientUnused1 then eBind (parseClientUnused1Data data) fun c => .ok (.unused1 c)
  else .error .unknownPdu

/-- ClientConnectionParser.parseStructure: 16-bit tag, 16-bit total length,
then exactly length-4 payload bytes (a short or negative payload read is a
length-mismatch ParsingError, checked before the unknown-tag lookup). -/
def clientParseStructure (s : Bytes) : Except PErr (ClientBlock × Bytes) :=
  eBind (readU16p s) fun (header, s) =>
  eBind (readU16p s) fun (lenRaw, s) =>
  let lengthI : Int := (lenRaw : Int) - 4
  let (data, s) := readAvail lengthI s
  if (data.length : Int) ≠ lengthI then .error .parsingErr
  else eBind (clientDispatch header data) fun b => .ok (b, s)

/-- Record a parsed block in the matching slot of the aggregate. -/
def clientRecord (st : ClientDataPDU) : ClientBlock → ClientDataPDU
  | .core c => { st with coreData := some c }
  | .security c => { st with securityData := some c }
  | .network c => { st with networkData := some c }
  | .cluster c => { st with clusterData := some c }
  | .monitor c => { st with monitorData := some c }
  | .messageChannel c => { st with messageChannelData := some c }
  | .monitorEx c => { st with monitorExData := some c }
  | .multitransport c => { st with multitransportData := some c }
  | .unused1 c => { st with unused1Data := some c }

/-- ClientConnectionParser.doParse loop: keep going while bytes remain and one
of the four mandatory blocks (core, security, network, cluster) is missing;
the mid-loop break fires only when the whole input was empty (totalLen = 0).
The fuel always exceeds the iteration count since each structure consumes at
least its 4-byte header. -/
def clientDoParseLoop : Nat → Nat → Bytes → ClientDataPDU → Except PErr ClientDataPDU
  | 0, _, _, _ => .error .structErr
  | fuel + 1, totalLen, s, st =>
    if s ≠ [] ∧ (st.coreData = none ∨ st.securityData = none ∨
        st.networkData = none ∨ st.clusterData = none) then
      match clientParseStructure s with
      | .error e => .error e
      | .ok (b, s') =>
        let st' := clientRecord st b
        if totalLen = 0 then .ok st' else clientDoParseLoop fuel totalLen s' st'
    else .ok st

def clientDoParse (data : Bytes) : Except PErr ClientDataPDU :=
  clientDoParseLoop (data.length + 1) data.length data {}

/-! ### Client Connection Data: writers -/

/-- The optional-field cascade of writeClientCoreData.  Uint*.pack of an absent
field raises struct.error, which the surrounding try swallows, keeping the
bytes written so far; encodeUTF16LE(None) raises AttributeError, which is not
caught and aborts the whole write. -/
def writeCoreOpt (c : ClientCoreData) : Except PErr Bytes :=
  match packOpt16 c.postBeta2ColorDepth with
  | .error _ => .ok []
  | .ok b1 =>
  match packOpt16 c.clientProductId with
  | .error _ => .ok b1
  | .ok b2 =>
  match packOpt32 c.serialNumber with
  | .error _ => .ok (b1 ++ b2)
  | .ok b3 =>
  match packOpt16 c.highColorDepth with
  | .error _ => .ok (b1 ++ b2 ++ b3)
  | .ok b4 =>
  match packOpt16 c.supportedColorDepths with
  | .error _ => .ok (b1 ++ b2 ++ b3 ++ b4)
  | .ok b5 =>
  match packOpt16 c.earlyCapabilityFlags with
  | .error _ => .ok (b1 ++ b2 ++ b3 ++ b4 ++ b5)
  | .ok b6 =>
  match c.clientDigProductId with
  | none => .error .attributeErr
  | some dig =>
  let b7 := ljustTrunc 64 (encodeUTF16LE dig)
  match packOpt8 c.connectionType with
  | .error _ => .ok (b1 ++ b2 ++ b3 ++ b4 ++ b5 ++ b6 ++ b7)
  | .ok b8 =>
  match packOpt32 c.serverSelectedProtocol with
  | .error _ => .ok (b1 ++ b2 ++ b3 ++ b4 ++ b5 ++ b6 ++ b7 ++ b8 ++ [0])
  | .ok b9 =>
  match packOpt32 c.desktopPhysicalWidth with
  | .error _ => .ok (b1 ++ b2 ++ b3 ++ b4 ++ b5 ++ b6 ++ b7 ++ b8 ++ [0] ++ b9)
  | .ok b10 =>
  match packOpt32 c.desktopPhysicalHeight with
  | .error _ => .ok (b1 ++ b2 ++ b3 ++ b4 ++ b5 ++ b6 ++ b7 ++ b8 ++ [0] ++ b9 ++ b10)
  | .ok b11 =>
  match packOpt16 c.desktopOrientation with
  | .error _ => .ok (b1 ++ b2 ++ b3 ++ b4 ++ b5 ++ b6 ++ b7 ++ b8 ++ [0] ++ b9 ++ b10 ++ b11)
  | .ok b12 =>
  match packOpt32 c.desktopScaleFactor with
  | .error _ => .ok (b1 ++ b2 ++ b3 ++ b4 ++ b5 ++ b6 ++ b7 ++ b8 ++ [0] ++ b9 ++ b10 ++ b11 ++ b12)
  | .ok b13 =>
  match packOpt32 c.deviceScaleFactor with
  | .error _ => .ok (b1 ++ b2 ++ b3 ++ b4 ++ b5 ++ b6 ++ b7 ++ b8 ++ [0] ++ b9 ++ b10 ++ b11 ++ b12 ++ b13)
  | .ok b14 => .ok (b1 ++ b2 ++ b3 ++ b4 ++ b5 ++ b6 ++ b7 ++ b8 ++ [0] ++ b9 ++ b10 ++ b11 ++ b12 ++ b13 ++ b14)

def writeClientCoreData (c : ClientCoreData) : Except PErr Bytes :=
  eBind (packU32 c.version) fun m1 =>
  eBind (packU16 c.desktopWidth) fun m2 =>
  eBind (packU16 c.desktopHeight) fun m3 =>
  eBind (packU16 c.colorDepth) fun m4 =>
  eBind (packU16 c.sasSequence) fun m5 =>
  eBind (packU32 c.keyboardLayout) fun m6 =>
  eBind (packU32 c.clientBuild) fun m7 =>
  let m8 := ljustTrunc 32 (encodeUTF16LE c.clientName)
  eBind (packU32 c.keyboardType) fun m9 =>
  eBind (packU32 c.keyboardSubType) fun m10 =>
  eBind (packU32 c.keyboardFunctionKey) fun m11 =>
  eBind (writeCoreOpt c) fun opt =>
  .ok (m1 ++ m2 ++ m3 ++ m4 ++ m5 ++ m6 ++ m7 ++ m8 ++ m9 ++ m10 ++ m11 ++ c.imeFileName ++ opt)

def writeClientSecurityData (d : ClientSecurityData) : Except PErr Bytes :=
  eBind (packU32 d.encryptionMethods) fun a =>
  eBind (packU32 d.extEncryptionMethods) fun b =>
  .ok (a ++ b)

/-- The per-channel body of writeClientNetworkData: a name longer than
8 characters raises ParsingError; otherwise the UTF-8 encoded name is
NUL-padded/truncated to 8 bytes and followed by the option mask. -/
def writeChannelDefs : List ClientChannelDefinition → Except PErr Bytes
  | [] => .ok []
  | ch :: rest =>
    if ch.name.length > 8 then .error .parsingErr
    else
      eBind (packU32 ch.options) fun opt =>
      eBind (writeChannelDefs rest) fun tail =>
      .ok (ljustTrunc 8 (utf8Encode ch.name) ++ opt ++ tail)

def writeClientNetworkData (d : ClientNetworkData) : Except PErr Bytes :=
  eBind (packU32 d.channelDefinitions.length) fun cnt =>
  eBind (writeChannelDefs d.channelDefinitions) fun body =>
  .ok (cnt ++ body)

def writeClientClusterData (d : ClientClusterData) : Except PErr Bytes :=
  eBind (packU32 d.flags) fun a =>
  eBind (packU32 d.redirectedSessionID) fun b =>
  .ok (a ++ b)

def writeClientMonitorAttribute (a : ClientMonitorAttribute) : Except PErr Bytes :=
  eBind (packU32 a.physicalWidth) fun b1 =>
  eBind (packU32 a.physicalHeight) fun b2 =>
  eBind (packU32 a.orientation) fun b3 =>
  eBind (packU32 a.desktopScaleFactor) fun b4 =>
  eBind (packU32 a.deviceScaleFactor) fun b5 =>
  .ok (b1 ++ b2 ++ b3 ++ b4 ++ b5)

def writeMonitorAttrs : List ClientMonitorAttribute → Except PErr Bytes
  | [] => .ok []
  | a :: rest =>
    eBind (writeClientMonitorAttribute a) fun b =>
    eBind (writeMonitorAttrs rest) fun tail =>
    .ok (b ++ tail)

def writeClientMonitorData (d : ClientMonitorData) : Except PErr Bytes :=
  eBind (packU32 d.flags) fun b1 =>
  eBind (packU32 d.monitorAttributeSize) fun b2 =>
  eBind (packU32 d.monitorCount) fun b3 =>
  eBind (writeMonitorAttrs d.monitorAttributes) fun attrs =>
  .ok (b1 ++ b2 ++ b3 ++ attrs)

def writeClientMessageChannelData (d : ClientMessageChannelData) : Except PErr Bytes :=
  eBind (packU32 d.flags) fun b => .ok b

def writeClientMonitorExData (d : ClientMonitorExData) : Except PErr Bytes :=
  eBind (packU32 d.flags) fun b1 =>
  eBind (packU32 d.monitorAttributeSize) fun b2 =>
  eBind (packU32 d.monitorCount) fun b3 =>
  eBind (writeMonitorAttrs d.monitorAttributes) fun attrs =>
  .ok (b1 ++ b2 ++ b3 ++ attrs)

def writeClientMultitransportData (d : ClientMultitransportData) : Except PErr Bytes :=
  eBind (packU32 d.flags) fun b => .ok b

def writeClientUnused1Data (d : ClientUnused1Data) : Except PErr Bytes :=
  eBind (packU16 d.pad2Octets) fun b => .ok b

/-! ### Server Connection Data: data model -/

/-- Modelled from the spec: RSA.construct builds a public-key value from the
(modulus, exponent) pair; no private material exists at this layer. -/
structure RsaKey where
  n : Nat
  e : Nat
  deriving DecidableEq

structure ProprietaryCertificate where
  signatureAlgorithmID : Nat
  keyAlgorithmID : Nat
  publicKeyType : Nat
  publicKey : RsaKey
  signatureType : Nat
  signature : Bytes
  padding : Bytes
  deriving DecidableEq

structure ServerCoreData where
  version : Nat
  clientRequestedProtocols : Option Nat
  earlyCapabilityFlags : Option Nat
  deriving DecidableEq

structure ServerNetworkData where
  mcsChannelID : Nat
  channels : List Nat
  deriving DecidableEq

structure ServerSecurityData where
  encryptionMethod : Nat
  encryptionLevel : Nat
  serverRandom : Option Bytes
  serverCertificate : Option ProprietaryCertificate
  deriving DecidableEq

structure ServerMessageChannelData where
  channelId : Nat
  deriving DecidableEq

structure ServerMultitransportData where
  flags : Nat
  deriving DecidableEq

structure ServerDataPDU where
  coreData : Option ServerCoreData := none
  securityData : Option ServerSecurityData := none
  networkData : Option ServerNetworkData := none
  messageChannelData : Option ServerMessageChannelData := none
  multitransportData : Option ServerMultitransportData := none
  deriving DecidableEq

/-! ### Server Connection Data: parsers -/

/-- parseServerCoreData: strict stream; one mandatory version field then the
cascading optional pair, whose EOFError is swallowed. -/
def parseServerCoreData (s : Bytes) : Except PErr ServerCoreData :=
  eBind (readU32s s) fun (version, s) =>
  match readU32s s with
  | .error _ => .ok ⟨version, none, none⟩
  | .ok (clientRequestedProtocols, s) =>
    match readU32s s with
    | .error _ => .ok ⟨version, some clientRequestedProtocols, none⟩
    | .ok (earlyCapabilityFlags, _) =>
      .ok ⟨version, some clientRequestedProtocols, some earlyCapabilityFlags⟩

def readU16List : Nat → Bytes → Except PErr (List Nat × Bytes)
  | 0, s => .ok ([], s)
  | n + 1, s =>
    eBind (readU16p s) fun (c, s) =>
    eBind (readU16List n s) fun (rest, s) =>
    .ok (c :: rest, s)

def parseServerNetworkData (s : Bytes) : Except PErr ServerNetworkData :=
  eBind (readU16p s) fun (mcsChannelID, s) =>
  eBind (readU16p s) fun (channelCount, s) =>
  eBind (readU16List channelCount s) fun (channels, _) =>
  .ok ⟨mcsChannelID, channels⟩

/-- bytes_to_long: big-endian interpretation of a byte string. -/
def bytesToLong (bs : Bytes) : Nat :=
  bs.foldl (fun acc b => acc * 256 + b) 0

/-- parsePublicKey: fixed fields on a plain stream, then keyLength-8 modulus
bytes (a keyLength below 8 makes Python read the whole remainder), reversed
before the big-endian interpretation. -/
def parsePublicKey (data : Bytes) : Except PErr RsaKey :=
  let s := data.drop 4
  eBind (readU32p s) fun (keyLength, s) =>
  eBind (readU32p s) fun (_bitLength, s) =>
  eBind (readU32p s) fun (_dataLength, s) =>
  eBind (readU32p s) fun (publicExponent, s) =>
  let (modulus, _) := readAvail ((keyLength : Int) - 8) s
  .ok ⟨bytesToLong modulus.reverse, publicExponent⟩

/-- parseProprietaryCertificate: plain reads; the signature length has 8
subtracted per wire convention (negative makes Python read the remainder),
and everything after it is kept as padding. -/
def parseProprietaryCertificate (s : Bytes) : Except PErr ProprietaryCertificate :=
  eBind (readU32p s) fun (signatureAlgorithmID, s) =>
  eBind (readU32p s) fun (keyAlgorithmID, s) =>
  eBind (readU16p s) fun (publicKeyType, s) =>
  eBind (readU16p s) fun (keyLength, s) =>
  let publicKeyBytes := s.take keyLength
  let s := s.drop keyLength
  eBind (readU16p s) fun (signatureType, s) =>
  eBind (readU16p s) fun (signatureLength, s) =>
  let (signature, s) := readAvail ((signatureLength : Int) - 8) s
  let padding := s
  eBind (parsePublicKey publicKeyBytes) fun publicKey =>
  .ok ⟨signatureAlgorithmID, keyAlgorithmID, publicKeyType, publicKey, signatureType,
       signature, padding⟩

/-- parseServerCertificate: only the proprietary format is handled. -/
def parseServerCertificate (data : Bytes) : Except PErr ProprietaryCertificate :=
  eBind (readU32p data) fun (version, s) =>
  if version = certTypeProprietary then parseProprietaryCertificate s
  else .error .notImplErr

/-- The optional group of parseServerSecurityData: strict reads whose EOFError
ends the group (serverRandom stays set once assigned); certificate parse
failures are not EOFError and propagate. -/
def serverSecOptional (s : Bytes) : Except PErr (Option Bytes × Option ProprietaryCertificate) :=
  match readU32s s with
  | .error _ => .ok (none, none)
  | .ok (serverRandomLength, s) =>
  match readU32s s with
  | .error _ => .ok (none, none)
  | .ok (serverCertificateLength, s) =>
  match readStrict serverRandomLength s with
  | .error _ => .ok (none, none)
  | .ok (serverRandom, s) =>
  match readStrict serverCertificateLength s with
  | .error _ => .ok (some serverRandom, none)
  | .ok (certBytes, _) =>
  match parseServerCertificate certBytes with
  | .error e => .error e
  | .ok cert => .ok (some serverRandom, some cert)

def parseServerSecurityData (s : Bytes) : Except PErr ServerSecurityData :=
  eBind (readU32s s) fun (encryptionMethod, s) =>
  eBind (ensure (isEncryptionMethod encryptionMethod) .valueErr) fun _ =>
  eBind (readU32s s) fun (encryptionLevel, s) =>
  eBind (ensure (isEncryptionLevel encryptionLevel) .valueErr) fun _ =>
  eBind (serverSecOptional s) fun (serverRandom, serverCertificate) =>
  .ok ⟨encryptionMethod, encryptionLevel, serverRandom, serverCertificate⟩

def parseServerMessageChannelData (s : Bytes) : Except PErr ServerMessageChannelData :=
  eBind (readU16s s) fun (channelId, _) => .ok ⟨channelId⟩

def parseServerMultitransportData (s : Bytes) : Except PErr ServerMultitransportData :=
  eBind (readU32s s) fun (flags, _) => .ok ⟨flags⟩

/-! ### Server Connection Data: outer TLV loop -/

inductive ServerBlock where
  | core (c : ServerCoreData)
  | security (c : ServerSecurityData)
  | network (c : ServerNetworkData)
  | messageChannel (c : ServerMessageChannelData)
  | multitransport (c : ServerMultitransportData)
  deriving DecidableEq

def serverDispatch (header : Nat) (data : Bytes) : Except PErr ServerBlock :=
  if header = tagServerCore then eBind (parseServerCoreData data) fun c => .ok (.core c)
  else if header = tagServerNetwork then eBind (parseServerNetworkData data) fun c => .ok (.network c)
  else if header = tagServerSecurity then eBind (parseServerSecurityData data) fun c => .ok (.security c)
  else if header = tagServerMsgChannel then eBind (parseServerMessageChannelData data) fun c => .ok (.messageChannel c)
  else if header = tagServerMultitransport then eBind (parseServerMultitransportData data) fun c => .ok (.multitransport c)
  else .error .unknownPdu

/-- ServerConnectionParser.parseStructure: as the client one, but the length
check only rejects a short payload (a declared length below 4 makes the read
take the whole remainder without failing the check). -/
def serverParseStructure (s : Bytes) : Except PErr (ServerBlock × Bytes) :=
  eBind (readU16p s) fun (header, s) =>
  eBind (readU16p s) fun (lenRaw, s) =>
  let lengthI : Int := (lenRaw : Int) - 4
  let (data, s) := readAvail lengthI s
  if (data.length : Int) < lengthI then .error .parsingErr
  else eBind (serverDispatch header data) fun b => .ok (b, s)

def serverRecord (st : ServerDataPDU) : ServerBlock → ServerDataPDU
  | .core c => { st with coreData := some c }
  | .security c => { st with securityData := some c }
  | .network c => { st with networkData := some c }
  | .messageChannel c => { st with messageChannelData := some c }
  | .multitransport c => { st with multitransportData := some c }

/-- ServerConnectionParser.doParse loop: keep going while one of the three
mandatory blocks (core, security, network) is missing; the unknown-tag raise in
the loop body is subsumed by parseStructure, and the mid-loop break fires only
when the whole input was empty (totalLen = 0). -/
def serverDoParseLoop : Nat → Nat → Bytes → ServerDataPDU → Except PErr ServerDataPDU
  | 0, _, _, _ => .error .structErr
  | fuel + 1, totalLen, s, st =>
    if st.coreData = none ∨ st.securityData = none ∨ st.networkData = none then
      match serverParseStructure s with
      | .error e => .error e
      | .ok (b, s') =>
        let st' := serverRecord st b
        if totalLen = 0 then .ok st' else serverDoParseLoop fuel totalLen s' st'
    else .ok st

def serverDoParse (data : Bytes) : Except PErr ServerDataPDU :=
  serverDoParseLoop (data.length + 1) data.length data {}

/-! ### Server Connection Data: writers -/

/-- long_to_bytes: the minimal big-endian byte string of a positive integer.
The fuel argument keeps the recursion structural; the value, divided by 256
each step, can never outlast it. -/
def natToBytesBEGo : Nat → Nat → Bytes
  | 0, _ => []
  | fuel + 1, n => if n = 0 then [] else natToBytesBEGo fuel (n / 256) ++ [n % 256]

def natToBytesBE (n : Nat) : Bytes := natToBytesBEGo n n

/-- The RSA1 magic tag. -/
def rsa1Magic : Bytes := [82, 83, 65, 49]

/-- writePublicKey: magic, declared key length (modulus length + 8), fixed bit
and data lengths, the exponent, the byte-reversed modulus and 8 pad bytes. -/
def writePublicKey (k : RsaKey) : Except PErr Bytes :=
  let modulusBytes := (natToBytesBE k.n).reverse
  eBind (packU32 (modulusBytes.length + 8)) fun kl =>
  eBind (packU32 2048) fun bl =>
  eBind (packU32 255) fun dl =>
  eBind (packU32 k.e) fun pe =>
  .ok (rsa1Magic ++ kl ++ bl ++ dl ++ pe ++ modulusBytes ++ List.replicate 8 0)

def writeProprietaryCertificate (cert : ProprietaryCertificate) : Except PErr Bytes :=
  eBind (writePublicKey cert.publicKey) fun keyBytes =>
  eBind (packU32 cert.signatureAlgorithmID) fun b1 =>
  eBind (packU32 cert.keyAlgorithmID) fun b2 =>
  eBind (packU16 cert.publicKeyType) fun b3 =>
  eBind (packU16 keyBytes.length) fun b4 =>
  eBind (packU16 cert.signatureType) fun b5 =>
  eBind (packU16 (cert.signature.length + 8)) fun b6 =>
  .ok (b1 ++ b2 ++ b3 ++ b4 ++ keyBytes ++ b5 ++ b6 ++ cert.signature ++ List.replicate 8 0)

/-- writeServerCertificate for the proprietary type (the only one handled). -/
def writeServerCertificate (cert : ProprietaryCertificate) : Except PErr Bytes :=
  eBind (packU32 certTypeProprietary) fun v =>
  eBind (writeProprietaryCertificate cert) fun body =>
  .ok (v ++ body)

/-- writeServerCoreData: a missing clientRequestedProtocols is written as 0;
earlyCapabilityFlags is written only when present. -/
def writeServerCoreData (d : ServerCoreData) : Except PErr Bytes :=
  eBind (packU32 d.version) fun v =>
  eBind (packU32 (d.clientRequestedProtocols.getD 0)) fun p =>
  match d.earlyCapabilityFlags with
  | none => .ok (v ++ p)
  | some f => eBind (packU32 f) fun fb => .ok (v ++ p ++ fb)

def packU16List : List Nat → Except PErr Bytes
  | [] => .ok []
  | c :: rest =>
    eBind (packU16 c) fun b =>
    eBind (packU16List rest) fun tail =>
    .ok (b ++ tail)

/-- writeServerNetworkData: channel ids, padded by one zero 16-bit word when
the count is odd. -/
def writeServerNetworkData (d : ServerNetworkData) : Except PErr Bytes :=
  eBind (packU16 d.mcsChannelID) fun mcs =>
  eBind (packU16 d.channels.length) fun cnt =>
  eBind (packU16List d.channels) fun chs =>
  let pad := if d.channels.length % 2 ≠ 0 then [0, 0] else ([] : Bytes)
  .ok (mcs ++ cnt ++ chs ++ pad)

/-- writeServerSecurityData: the optional group is emitted only when
serverRandom is present; a present serverRandom with an absent certificate
makes writeServerCertificate dereference None (AttributeError). -/
def writeServerSecurityData (d : ServerSecurityData) : Except PErr Bytes :=
  eBind (packU32 d.encryptionMethod) fun m =>
  eBind (packU32 d.encryptionLevel) fun l =>
  match d.serverRandom with
  | none => .ok (m ++ l)
  | some rnd =>
    match d.serverCertificate with
    | none => .error .attributeErr
    | some cert =>
      eBind (writeServerCertificate cert) fun certBytes =>
      eBind (packU32 rnd.length) fun rl =>
      eBind (packU32 certBytes.length) fun cl =>
      .ok (m ++ l ++ rl ++ cl ++ rnd ++ certBytes)

def writeServerMessageChannelData (d : ServerMessageChannelData) : Except PErr Bytes :=
  eBind (packU16 d.channelId) fun b => .ok b

def writeServerMultitransportData (d : ServerMultitransportData) : Except PErr Bytes :=
  eBind (packU32 d.flags) fun b => .ok b

/-! ### Dynamic Channel codec

The PDU family is one tagged type; each concrete Python class fixes its cmd
code through its constructor, and the base-class constructor validates cbid
against the CbId enum and cmd against the DynamicChannelCommand enum
(a ValueError on values outside them).  The memberships are modelled from the
spec's command list: Create 1, DataFirst 2, Data 3, Close 4, Capability 5,
DataFirstCompressed 6, DataCompressed 7. -/

/-- Modelled from the spec: CbId enum membership {0,1,2} meaning 1/2/4 bytes. -/
def isCbId (v : Nat) : Bool := v ≤ 2

/-- Modelled from the spec: DynamicChannelCommand enum membership. -/
def isDynCommand (v : Nat) : Bool := 1 ≤ v ∧ v ≤ 7

inductive DynPdu where
  | capabilityResponse (cbid sp capability : Nat)
  | createRequest (cbid sp channelId : Nat) (channelName : String)
  | createResponse (cbid sp channelId creationStatus : Nat)
  | dataFirst (cbid sp channelId length : Nat) (payload : Bytes)
  | dataPlain (cbid sp channelId : Nat) (payload : Bytes)
  | dataFirstCompressed (cbid sp channelId length : Nat) (payload : Bytes)
  | dataCompressed (cbid sp channelId : Nat) (payload : Bytes)
  | closeChannel (cbid sp channelId : Nat)
  | generic (cbid sp cmd : Nat) (payload : Bytes)
  deriving DecidableEq

def DynPdu.cbid : DynPdu → Nat
  | .capabilityResponse c _ _ => c
  | .createRequest c _ _ _ => c
  | .createResponse c _ _ _ => c
  | .dataFirst c _ _ _ _ => c
  | .dataPlain c _ _ _ => c
  | .dataFirstCompressed c _ _ _ _ => c
  | .dataCompressed c _ _ _ => c
  | .closeChannel c _ _ => c
  | .generic c _ _ _ => c

def DynPdu.sp : DynPdu → Nat
  | .capabilityResponse _ v _ => v
  | .createRequest _ v _ _ => v
  | .createResponse _ v _ _ => v
  | .dataFirst _ v _ _ _ => v
  | .dataPlain _ v _ _ => v
  | .dataFirstCompressed _ v _ _ _ => v
  | .dataCompressed _ v _ _ => v
  | .closeChannel _ v _ => v
  | .generic _ v _ _ => v

/-- The cmd code fixed by each Python subclass constructor (CreateResponse also
uses the Create code; CapabilityResponse uses the capability code). -/
def DynPdu.cmdCode : DynPdu → Nat
  | .capabilityResponse _ _ _ => 5
  | .createRequest _ _ _ _ => 1
  | .createResponse _ _ _ _ => 1
  | .dataFirst _ _ _ _ _ => 2
  | .dataPlain _ _ _ _ => 3
  | .dataFirstCompressed _ _ _ _ _ => 6
  | .dataCompressed _ _ _ _ => 7
  | .closeChannel _ _ _ => 4
  | .generic _ _ c _ => c

/-- readChannelId: width selected by cbid per the {0,1,2} mapping; any other
value is a ValueError. -/
def readChannelId (s : Bytes) (cbid : Nat) : Except PErr (Nat × Bytes) :=
  if cbid = 0 then readU8p s
  else if cbid = 1 then readU16p s
  else if cbid = 2 then readU32p s
  else .error .valueErr

/-- readLength: same width mapping keyed on the sp field. -/
def readLength (s : Bytes) (sp : Nat) : Except PErr (Nat × Bytes) :=
  if sp = 0 then readU8p s
  else if sp = 1 then readU16p s
  else if sp = 2 then readU32p s
  else .error .valueErr

/-- The outcome of a dynamic-channel parse: a PDU, a raised exception, or
non-termination of the CreateRequest name loop. -/
inductive DynOutcome where
  | ok (p : DynPdu)
  | error (e : PErr)
  | hang
  deriving DecidableEq

/-- One iteration of the CreateRequest name loop: read one byte and decode it.
At end of input, Python's read(1) returns the empty string, whose decode is ""
and never equals the NUL sentinel, so the loop state is unchanged — the loop
never terminates from that state. -/
inductive NameStep where
  | more (acc : String) (s : Bytes)
  | done (acc : String) (s : Bytes)
  | fail (e : PErr)
  deriving DecidableEq

def createNameStep (acc : String) : Bytes → NameStep
  | [] => .more acc []
  | b :: rest =>
    if b = 0 then .done acc rest
    else if b < 128 then .more (acc.push (Char.ofNat b)) rest
    else .fail .unicodeErr

/-- The whole name loop.  The end-of-input case is the provably stuck state of
createNameStep and is reported as a hang. -/
inductive NameRead where
  | okName (name : String) (rest : Bytes)
  | errName (e : PErr)
  | hangName
  deriving DecidableEq

def readCreateNameAux : Bytes → List Char → NameRead
  | [], _ => .hangName
  | b :: rest, acc =>
    if b = 0 then .okName (String.mk acc.reverse) rest
    else if b < 128 then readCreateNameAux rest (Char.ofNat b :: acc)
    else .errName .unicodeErr

/-- DynamicChannelParser.doParse: one header byte split into cbid/sp/cmd,
then a branch per handled command; anything else builds the generic
DynamicChannelPDU, whose constructor validates cbid and cmd. -/
def dynDoParse (data : Bytes) : DynOutcome :=
  match readU8p data with
  | .error e => .error e
  | .ok (header, s) =>
    let cbid := header % 4
    let sp := header / 4 % 4
    let cmd := header / 16 % 16
    if cmd = 1 then
      match readChannelId s cbid with
      | .error e => .error e
      | .ok (channelId, s) =>
        match readCreateNameAux s [] with
        | .hangName => .hang
        | .errName e => .error e
        | .okName name _ => .ok (.createRequest cbid sp channelId name)
    else if cmd = 2 then
      match readChannelId s cbid with
      | .error e => .error e
      | .ok (channelId, s) =>
        match readLength s sp with
        | .error e => .error e
        | .ok (length, s) => .ok (.dataFirst cbid sp channelId length s)
    else if cmd = 3 then
      match readChannelId s cbid with
      | .error e => .error e
      | .ok (channelId, s) => .ok (.dataPlain cbid sp channelId s)
    else if cmd = 6 then
      match readChannelId s cbid with
      | .error e => .error e
      | .ok (channelId, s) =>
        match readLength s sp with
        | .error e => .error e
        | .ok (length, s) => .ok (.dataFirstCompressed cbid sp channelId length s)
    else if cmd = 7 then
      match readChannelId s cbid with
      | .error e => .error e
      | .ok (channelId, s) => .ok (.dataCompressed cbid sp channelId s)
    else if cmd = 4 then
      match readChannelId s cbid with
      | .error e => .error e
      | .ok (channelId, _) => .ok (.closeChannel cbid sp channelId)
    else
      if isCbId cbid ∧ isDynCommand cmd then .ok (.generic cbid sp cmd s)
      else .error .valueErr

def writeChannelId (cbid channelId : Nat) : Except PErr Bytes :=
  if cbid = 0 then packU8 channelId
  else if cbid = 1 then packU16 channelId
  else if cbid = 2 then packU32 channelId
  else .error .valueErr

def writeLength (sp length : Nat) : Except PErr Bytes :=
  if sp = 0 then packU8 length
  else if sp = 1 then packU16 length
  else if sp = 2 then packU32 length
  else .error .valueErr

/-- DynamicChannelParser.write: the header byte is rebuilt and packed first,
then the variant is dispatched by instance check; CreateRequest and the
generic base class match no branch and raise NotImplementedError. -/
def dynWrite (pdu : DynPdu) : Except PErr Bytes :=
  let header := pdu.cbid ||| (pdu.sp <<< 2) ||| (pdu.cmdCode <<< 4)
  eBind (packU8 header) fun hb =>
  match pdu with
  | .capabilityResponse _ _ capability =>
    eBind (packU8 0) fun padB =>
    eBind (packU16 capability) fun capB =>
    .ok (hb ++ padB ++ capB)
  | .createResponse cbid _ channelId creationStatus =>
    eBind (writeChannelId cbid channelId) fun idB =>
    eBind (packU32 creationStatus) fun stB =>
    .ok (hb ++ idB ++ stB)
  | .dataFirst cbid sp channelId length payload =>
    eBind (writeChannelId cbid channelId) fun idB =>
    eBind (writeLength sp length) fun lenB =>
    .ok (hb ++ idB ++ lenB ++ payload)
  | .dataPlain cbid _ channelId payload =>
    eBind (writeChannelId cbid channelId) fun idB =>
    .ok (hb ++ idB ++ payload)
  | .dataFirstCompressed cbid sp channelId length payload =>
    eBind (writeChannelId cbid channelId) fun idB =>
    eBind (writeLength sp length) fun lenB =>
    .ok (hb ++ idB ++ lenB ++ payload)
  | .dataCompressed cbid _ channelId payload =>
    eBind (writeChannelId cbid channelId) fun idB =>
    .ok (hb ++ idB ++ payload)
  | .closeChannel cbid _ channelId =>
    eBind (writeChannelId cbid channelId) fun idB =>
    .ok (hb ++ idB)
  | _ => .error .notImplErr

/-! ### Concrete example data used in the claim theorems -/

/-- The 32-byte clientName field holding "host" in UTF-16LE with NUL padding. -/
def hostNameBytes : Bytes := [104, 0, 111, 0, 115, 0, 116, 0] ++ List.replicate 24 0

/-- The 128-byte mandatory-only client core payload from the spec's end-to-end
example: version 0x00080004, 1024x768, color depth 0xCA01, SAS 0xAA03,
layout 0x409, build 2600, name "host", keyboard 4/0/12, 64 zero IME bytes. -/
def corePayload : Bytes :=
  [4, 0, 8, 0] ++ [0, 4] ++ [0, 3] ++ [1, 202] ++ [3, 170] ++ [9, 4, 0, 0] ++ [40, 10, 0, 0] ++
  hostNameBytes ++ [4, 0, 0, 0] ++ [0, 0, 0, 0] ++ [12, 0, 0, 0] ++ List.replicate 64 0

/-- The decode of the padded name field: "host" followed by twelve NUL characters. -/
def hostPadded : String :=
  String.mk (['h', 'o', 's', 't'] ++ List.replicate 12 (Char.ofNat 0))

/-- The ClientCoreData parsed from corePayload (all optional fields absent). -/
def coreHost : ClientCoreData :=
  { version := 524292, desktopWidth := 1024, desktopHeight := 768, colorDepth := 51713,
    sasSequence := 43523, keyboardLayout := 1033, clientBuild := 2600,
    clientName := hostPadded, keyboardType := 4, keyboardSubType := 0,
    keyboardFunctionKey := 12, imeFileName := List.replicate 64 0 }

/-- The client core block (outer TLV included). -/
def coreBlockBytes : Bytes := [1, 192] ++ [132, 0] ++ corePayload

/-- A client security block with zero methods. -/
def secBlockBytes : Bytes := [2, 192] ++ [12, 0] ++ List.replicate 8 0

/-- A client network block with zero channels. -/
def netBlockBytes : Bytes := [3, 192] ++ [8, 0] ++ [0, 0, 0, 0]

/-- A client cluster block with zero flags. -/
def clusterBlockBytes : Bytes := [4, 192] ++ [12, 0] ++ List.replicate 8 0

/-- A client monitor block with zero monitors. -/
def monitorBlockBytes : Bytes := [5, 192] ++ [16, 0] ++ List.replicate 12 0

/-- The aggregate parsed from core, security, network and cluster blocks. -/
def clientPduFour : ClientDataPDU :=
  { coreData := some coreHost, securityData := some ⟨0, 0⟩,
    networkData := some ⟨[]⟩, clusterData := some ⟨0, 0⟩ }

/-- The aggregate parsed when a monitor block precedes the cluster block. -/
def clientPduFive : ClientDataPDU :=
  { coreData := some coreHost, securityData := some ⟨0, 0⟩,
    networkData := some ⟨[]⟩, clusterData := some ⟨0, 0⟩,
    monitorData := some ⟨0, 0, 0, []⟩ }

/-- A minimal server data buffer: core, security and network blocks. -/
def serverDemoBuf : Bytes :=
  ([1, 12] ++ [8, 0] ++ [4, 0, 8, 0]) ++
  ([2, 12] ++ [12, 0] ++ List.replicate 8 0) ++
  ([3, 12] ++ [8, 0] ++ [235, 3, 0, 0])

/-- The aggregate parsed from serverDemoBuf. -/
def serverDemoPdu : ServerDataPDU :=
  { coreData := some ⟨524292, none, none⟩, securityData := some ⟨0, 0, none, none⟩,
    networkData := some ⟨1003, []⟩ }

/-- The cascade invariant of the client core optional group: no optional field
is present unless its predecessor in wire order is. -/
def coreCascadeMono (c : ClientCoreData) : Prop :=
  (c.clientProductId.isSome → c.postBeta2ColorDepth.isSome) ∧
  (c.serialNumber.isSome → c.clientProductId.isSome) ∧
  (c.highColorDepth.isSome → c.serialNumber.isSome) ∧
  (c.supportedColorDepths.isSome → c.highColorDepth.isSome) ∧
  (c.earlyCapabilityFlags.isSome → c.supportedColorDepths.isSome) ∧
  (c.clientDigProductId.isSome → c.earlyCapabilityFlags.isSome) ∧
  (c.connectionType.isSome → c.clientDigProductId.isSome) ∧
  (c.serverSelectedProtocol.isSome → c.connectionType.isSome) ∧
  (c.desktopPhysicalWidth.isSome → c.serverSelectedProtocol.isSome) ∧
  (c.desktopPhysicalHeight.isSome → c.desktopPhysicalWidth.isSome) ∧
  (c.desktopOrientation.isSome → c.desktopPhysicalHeight.isSome) ∧
  (c.desktopScaleFactor.isSome → c.desktopOrientation.isSome) ∧
  (c.deviceScaleFactor.isSome → c.desktopScaleFactor.isSome)

/-- All fourteen optional fields of a client core block are absent. -/
def coreOptAllNone (c : ClientCoreData) : Prop :=
  c.postBeta2ColorDepth = none ∧ c.clientProductId = none ∧ c.serialNumber = none ∧
  c.highColorDepth = none ∧ c.supportedColorDepths = none ∧ c.earlyCapabilityFlags = none ∧
  c.clientDigProductId = none ∧ c.connectionType = none ∧ c.serverSelectedProtocol = none ∧
  c.desktopPhysicalWidth = none ∧ c.desktopPhysicalHeight = none ∧ c.desktopOrientation = none ∧
  c.desktopScaleFactor = none ∧ c.deviceScaleFactor = none

instance (c : ClientCoreData) : Decidable (coreCascadeMono c) := by
  unfold coreCascadeMono; infer_instance

instance (c : ClientCoreData) : Decidable (coreOptAllNone c) := by
  unfold coreOptAllNone; infer_instance

/-- The exclusive upper bound of a width-selected dynamic-channel field:
1, 2 or 4 bytes per the {0,1,2} selector mapping. -/
def cbidBound : Nat → Nat
  | 0 => 256
  | 1 => 65536
  | _ => 4294967296

/-! ## Helper lemmas about the primitive layer -/

theorem eBind_ok (a : α) (f : α → Except PErr β) : eBind (.ok a) f = f a := rfl

theorem eBind_err (e : PErr) (f : α → Except PErr β) : eBind (.error e) f = .error e := rfl

theorem readU8p_cons (b : Nat) (rest : Bytes) : readU8p (b :: rest) = .ok (b, rest) := rfl

theorem readU8s_cons (b : Nat) (rest : Bytes) : readU8s (b :: rest) = .ok (b, rest) := rfl

theorem readU16p_u16b (v : Nat) (rest : Bytes) (h : v < 65536) :
    readU16p (u16b v ++ rest) = .ok (v, rest) := by
  simp only [u16b, List.cons_append, List.nil_append, readU16p]
  have : v % 256 + 256 * (v / 256 % 256) = v := by omega
  rw [this]

theorem readU16s_u16b (v : Nat) (rest : Bytes) (h : v < 65536) :
    readU16s (u16b v ++ rest) = .ok (v, rest) := by
  simp only [u16b, List.cons_append, List.nil_append, readU16s]
  have : v % 256 + 256 * (v / 256 % 256) = v := by omega
  rw [this]

theorem readU32p_u32b (v : Nat) (rest : Bytes) (h : v < 4294967296) :
    readU32p (u32b v ++ rest) = .ok (v, rest) := by
  simp only [u32b, List.cons_append, List.nil_append, readU32p]
  have : v % 256 + 256 * (v / 256 % 256) + 65536 * (v / 65536 % 256) +
      16777216 * (v / 16777216 % 256) = v := by omega
  rw [this]

theorem readU32s_u32b (v : Nat) (rest : Bytes) (h : v < 4294967296) :
    readU32s (u32b v ++ rest) = .ok (v, rest) := by
  simp only [u32b, List.cons_append, List.nil_append, readU32s]
  have : v % 256 + 256 * (v / 256 % 256) + 65536 * (v / 65536 % 256) +
      16777216 * (v / 16777216 % 256) = v := by omega
  rw [this]

theorem packU8_eq (v : Nat) (h : v < 256) : packU8 v = .ok [v] := by
  simp [packU8, h]

theorem packU16_eq (v : Nat) (h : v < 65536) : packU16 v = .ok (u16b v) := by
  simp [packU16, h]

theorem packU32_eq (v : Nat) (h : v < 4294967296) : packU32 v = .ok (u32b v) := by
  simp [packU32, h]

theorem readStrict_exact (pre rest : Bytes) :
    readStrict pre.length (pre ++ rest) = .ok (pre, rest) := by
  unfold readStrict
  rw [if_neg, List.take_left, List.drop_left]
  simp only [List.length_append]
  omega

theorem readStrict_of_len {n : Nat} (pre rest : Bytes) (h : pre.length = n) :
    readStrict n (pre ++ rest) = .ok (pre, rest) := by
  subst h; exact readStrict_exact pre rest

theorem readAvail_exact (pre rest : Bytes) :
    readAvail (pre.length : Int) (pre ++ rest) = (pre, rest) := by
  unfold readAvail
  rw [if_neg (by omega)]
  rw [Int.toNat_natCast, List.take_left, List.drop_left]

/-- The header-byte identities: rebuilding from the three sub-fields and
extracting them again is the identity on in-range values. -/
theorem headerFields : ∀ cbid < 4, ∀ sp < 4, ∀ cmd < 16,
    (cbid ||| sp <<< 2 ||| cmd <<< 4) < 256 ∧
    (cbid ||| sp <<< 2 ||| cmd <<< 4) % 4 = cbid ∧
    (cbid ||| sp <<< 2 ||| cmd <<< 4) / 4 % 4 = sp ∧
    (cbid ||| sp <<< 2 ||| cmd <<< 4) / 16 % 16 = cmd := by decide

theorem utf8DecodeGo_ascii : ∀ (l : Bytes) (fuel : Nat) (acc : List Char),
    l.length ≤ fuel → (∀ b ∈ l, b < 128) →
    utf8DecodeGo fuel l acc = .ok (acc.reverse ++ l.map Char.ofNat) := by
  intro l
  induction l with
  | nil =>
    intro fuel acc _ _
    cases fuel <;> simp [utf8DecodeGo]
  | cons b rest ih =>
    intro fuel acc hf hb
    have hb0 : b < 128 := hb b (by simp)
    match fuel with
    | fuel + 1 =>
      rw [show utf8DecodeGo (fuel + 1) (b :: rest) acc =
            utf8DecodeGo fuel rest (Char.ofNat b :: acc) by simp [utf8DecodeGo, hb0]]
      rw [ih fuel (Char.ofNat b :: acc) (by simpa using hf)
            (fun x hx => hb x (List.mem_cons_of_mem b hx))]
      simp

theorem utf8Decode_ascii (l : Bytes) (h : ∀ b ∈ l, b < 128) :
    utf8Decode l = .ok (String.mk (l.map Char.ofNat)) := by
  unfold utf8Decode
  rw [utf8DecodeGo_ascii l l.length [] (Nat.le_refl _) h]
  simp

theorem bytesToLong_snoc (l : Bytes) (b : Nat) :
    bytesToLong (l ++ [b]) = 256 * bytesToLong l + b := by
  simp [bytesToLong, List.foldl_append]
  omega

theorem natToBytesBEGo_long : ∀ (fuel n : Nat), n ≤ fuel →
    bytesToLong (natToBytesBEGo fuel n) = n := by
  intro fuel
  induction fuel with
  | zero =>
    intro n h
    have : n = 0 := by omega
    simp [natToBytesBEGo, this, bytesToLong]
  | succ fuel ih =>
    intro n h
    by_cases h0 : n = 0
    · simp [natToBytesBEGo, h0, bytesToLong]
    · have hdiv : n / 256 ≤ fuel := by
        have := Nat.div_lt_self (Nat.pos_of_ne_zero h0) (by omega : 1 < 256)
        omega
      rw [show natToBytesBEGo (fuel + 1) n =
            natToBytesBEGo fuel (n / 256) ++ [n % 256] by simp [natToBytesBEGo, h0]]
      rw [bytesToLong_snoc, ih (n / 256) hdiv]
      omega

theorem natToBytesBE_long (n : Nat) : bytesToLong (natToBytesBE n) = n :=
  natToBytesBEGo_long n n (Nat.le_refl n)

/-! ## Framing of the outer TLV loop -/

theorem clientParseStructure_frame (tag : Nat) (payload rest : Bytes)
    (htag : tag < 65536) (hlen : payload.length + 4 < 65536) :
    clientParseStructure (u16b tag ++ u16b (payload.length + 4) ++ payload ++ rest) =
      eBind (clientDispatch tag payload) fun b => .ok (b, rest) := by
  have h1 := readU16p_u16b tag (u16b (payload.length + 4) ++ (payload ++ rest)) htag
  have h2 := readU16p_u16b (payload.length + 4) (payload ++ rest) hlen
  have h3 : ((payload.length + 4 : Nat) : Int) - 4 = (payload.length : Int) := by
    push_cast; ring
  have h4 := readAvail_exact payload rest
  simp only [List.append_assoc]
  rw [clientParseStructure, h1, eBind_ok]
  simp only [h2, h3, h4, eBind_ok]
  simp

theorem serverParseStructure_frame (tag : Nat) (payload rest : Bytes)
    (htag : tag < 65536) (hlen : payload.length + 4 < 65536) :
    serverParseStructure (u16b tag ++ u16b (payload.length + 4) ++ payload ++ rest) =
      eBind (serverDispatch tag payload) fun b => .ok (b, rest) := by
  have h1 := readU16p_u16b tag (u16b (payload.length + 4) ++ (payload ++ rest)) htag
  have h2 := readU16p_u16b (payload.length + 4) (payload ++ rest) hlen
  have h3 : ((payload.length + 4 : Nat) : Int) - 4 = (payload.length : Int) := by
    push_cast; ring
  have h4 := readAvail_exact payload rest
  simp only [List.append_assoc]
  rw [serverParseStructure, h1, eBind_ok]
  simp only [h2, h3, h4, eBind_ok]
  simp

/-! ## Claims C3, C4, C5, C9 and the C1 counterexample -/

/-- C3: every parse entry point is bounded by the byte slice length and
truncated input yields a failure, not a hang.  This is refuted by the code: a
Dynamic Channel CreateRequest whose name has no NUL terminator spins forever.
The theorem shows the modelled parse reaching the hang outcome on the concrete
input (header 0x10 = CreateRequest, channel id 5, name byte 0x41, no NUL), and
that the Python name loop's step function is at a fixpoint at end of input
(read(1) returns the empty string, which never equals the NUL sentinel and
leaves the accumulator and stream unchanged), so the loop cannot terminate. -/
theorem claim_C3_createHang :
    dynDoParse [16, 5, 65] = .hang ∧ ∀ acc : String, createNameStep acc [] = .more acc [] :=
  ⟨by decide, fun _ => rfl⟩

/-- C4 (counterexample): a header byte whose cmd nibble is 0 (a value outside
the Dynamic Channel command enum) does not parse into the generic variant; the
generic DynamicChannelPDU constructor rejects the cmd with a ValueError. -/
theorem claim_C4_counterexample : dynDoParse [0] = .error .valueErr := by decide

/-- C4 (amended): a command in the modelled enum but without a parse branch
(capability, 0x05) parses into the generic variant carrying the raw cbid, sp
and cmd plus the exact remaining bytes; commands outside the enum are rejected
by the PDU constructor, and re-serializing a hand-built generic instance does
not reproduce the bytes but raises NotImplementedError. -/
theorem claim_C4_amended (cbid sp : Nat) (payload : Bytes)
    (hc : cbid ≤ 2) (hs : sp ≤ 3) :
    dynDoParse ((cbid ||| sp <<< 2 ||| 5 <<< 4) :: payload) = .ok (.generic cbid sp 5 payload) ∧
    dynWrite (.generic cbid sp 5 payload) = .error .notImplErr := by
  obtain ⟨hlt, h1, h2, h3⟩ := headerFields cbid (by omega) sp (by omega) 5 (by omega)
  constructor
  · simp only [dynDoParse, readU8p_cons, h1, h2, h3]
    have hcb : isCbId cbid := by simp [isCbId]; omega
    simp [hcb, isDynCommand]
  · simp only [dynWrite, DynPdu.cbid, DynPdu.sp, DynPdu.cmdCode, packU8_eq _ hlt, eBind_ok]

/-- C4 witness: the amended statement at cbid 0, sp 0, payload [1, 2, 3]
(header byte 0x50). -/
theorem claim_C4_witness :
    dynDoParse [80, 1, 2, 3] = .ok (.generic 0 0 5 [1, 2, 3]) ∧
    dynWrite (.generic 0 0 5 [1, 2, 3]) = .error .notImplErr := by
  have h := claim_C4_amended 0 0 [1, 2, 3] (by omega) (by omega)
  rwa [show ((0 : Nat) ||| 0 <<< 2 ||| 5 <<< 4) = 80 from by decide] at h

/-- C5: any client network payload containing the reserved legacy channel name
(case-insensitively) fails with the exploit signature before any structural
parsing is attempted, whatever the rest of the payload holds. -/
theorem claim_C5_exploitPrecedence (s : Bytes) (h : detectBlueKeepScan s = true) :
    parseClientNetworkData s = .error .exploit := by
  unfold parseClientNetworkData
  simp [h]

/-- C5 witness: a payload holding one well-formed channel entry named
"ms_t120" (lowercase) that would otherwise parse, rejected as an exploit. -/
theorem claim_C5_witness :
    parseClientNetworkData
      ([1, 0, 0, 0] ++ [109, 115, 95, 116, 49, 50, 48, 0] ++ [0, 0, 0, 0]) =
      .error .exploit :=
  claim_C5_exploitPrecedence _ (by decide)

set_option maxRecDepth 100000 in
/-- C9 (counterexample): the 11-mandatory-field client core value from the
spec's example serializes to 128 header-exclusive bytes, not 88 as claimed. -/
theorem claim_C9_counterexample :
    writeClientCoreData coreHost = .ok corePayload ∧ corePayload.length ≠ 88 :=
  ⟨by decide, by decide⟩

set_option maxRecDepth 100000 in
/-- C9 (amended): the 128-byte mandatory-only client core payload (the spec's
example values) parses to a ClientCoreData with all 14 optional fields absent,
and serializing that value reproduces the exact 128-byte payload. -/
theorem claim_C9_amended :
    parseClientCoreData corePayload = .ok coreHost ∧ coreOptAllNone coreHost ∧
    writeClientCoreData coreHost = .ok corePayload ∧ corePayload.length = 128 :=
  ⟨by decide, by decide, by decide, by decide⟩

/-- C1 (counterexample): round-tripping is broken for the server core block.
A value with clientRequestedProtocols absent writes that field as 0, and
parsing the written bytes yields a value with the field present (0). -/
theorem claim_C1_counterexample :
    writeServerCoreData ⟨1, none, none⟩ = .ok [1, 0, 0, 0, 0, 0, 0, 0] ∧
    parseServerCoreData [1, 0, 0, 0, 0, 0, 0, 0] = .ok ⟨1, some 0, none⟩ ∧
    ServerCoreData.mk 1 (some 0) none ≠ ⟨1, none, none⟩ :=
  ⟨by decide, by decide, by decide⟩

/-! ## Cascade monotonicity (C6)

One lemma per optional field of the client core cascade, stated with the
invariant that holds when the cascade reaches that field: the value so far is
monotone, the predecessor field is populated, and that field and all later
ones are still absent. -/

theorem coreOpt14_mono (s : Bytes) (c : ClientCoreData)
    (hm : coreCascadeMono c)
    (hp : c.desktopScaleFactor.isSome) :
    ∀ c', parseCoreOpt14 s c = .ok c' → coreCascadeMono c' := by
  intro c' h
  unfold parseCoreOpt14 at h
  cases hr : readU32s s with
  | error e => rw [hr] at h; injection h with h; subst h; exact hm
  | ok vp =>
    rw [hr] at h
    obtain ⟨v, s2⟩ := vp
    injection h with h
    subst h
    unfold coreCascadeMono at hm ⊢
    exact ⟨hm.1,
        hm.2.1,
        hm.2.2.1,
        hm.2.2.2.1,
        hm.2.2.2.2.1,
        hm.2.2.2.2.2.1,
        hm.2.2.2.2.2.2.1,
        hm.2.2.2.2.2.2.2.1,
        hm.2.2.2.2.2.2.2.2.1,
        hm.2.2.2.2.2.2.2.2.2.1,
        hm.2.2.2.2.2.2.2.2.2.2.1,
        hm.2.2.2.2.2.2.2.2.2.2.2.1,
        fun _ => hp⟩

theorem coreOpt13_mono (s : Bytes) (c : ClientCoreData)
    (hm : coreCascadeMono c)
    (hp : c.desktopOrientation.isSome)
    (h14 : c.deviceScaleFactor = none) :
    ∀ c', parseCoreOpt13 s c = .ok c' → coreCascadeMono c' := by
  intro c' h
  unfold parseCoreOpt13 at h
  cases hr : readU32s s with
  | error e => rw [hr] at h; injection h with h; subst h; exact hm
  | ok vp =>
    rw [hr] at h
    obtain ⟨v, s2⟩ := vp
    refine coreOpt14_mono s2 _ (by
        unfold coreCascadeMono at hm ⊢
        exact ⟨hm.1,
        hm.2.1,
        hm.2.2.1,
        hm.2.2.2.1,
        hm.2.2.2.2.1,
        hm.2.2.2.2.2.1,
        hm.2.2.2.2.2.2.1,
        hm.2.2.2.2.2.2.2.1,
        hm.2.2.2.2.2.2.2.2.1,
        hm.2.2.2.2.2.2.2.2.2.1,
        hm.2.2.2.2.2.2.2.2.2.2.1,
        fun _ => hp,
        by simp [h14]⟩) (by simp) c' h

theorem coreOpt12_mono (s : Bytes) (c : ClientCoreData)
    (hm : coreCascadeMono c)
    (hp : c.desktopPhysicalHeight.isSome)
    (h13 : c.desktopScaleFactor = none)
    (h14 : c.deviceScaleFactor = none) :
    ∀ c', parseCoreOpt12 s c = .ok c' → coreCascadeMono c' := by
  intro c' h
  unfold parseCoreOpt12 at h
  cases hr : readU16s s with
  | error e => rw [hr] at h; injection h with h; subst h; exact hm
  | ok vp =>
    rw [hr] at h
    obtain ⟨v, s2⟩ := vp
    dsimp only at h
    split at h
    · refine coreOpt13_mono s2 _ (by
        unfold coreCascadeMono at hm ⊢
        exact ⟨hm.1,
        hm.2.1,
        hm.2.2.1,
        hm.2.2.2.1,
        hm.2.2.2.2.1,
        hm.2.2.2.2.2.1,
        hm.2.2.2.2.2.2.1,
        hm.2.2.2.2.2.2.2.1,
        hm.2.2.2.2.2.2.2.2.1,
        hm.2.2.2.2.2.2.2.2.2.1,
        fun _ => hp,
        by simp [h13],
        by simp [h14]⟩) (by simp) (by simp [h14]) c' h
    · cases h

theorem coreOpt11_mono (s : Bytes) (c : ClientCoreData)
    (hm : coreCascadeMono c)
    (hp : c.desktopPhysicalWidth.isSome)
    (h12 : c.desktopOrientation = none)
    (h13 : c.desktopScaleFactor = none)
    (h14 : c.deviceScaleFactor = none) :
    ∀ c', parseCoreOpt11 s c = .ok c' → coreCascadeMono c' := by
  intro c' h
  unfold parseCoreOpt11 at h
  cases hr : readU32s s with
  | error e => rw [hr] at h; injection h with h; subst h; exact hm
  | ok vp =>
    rw [hr] at h
    obtain ⟨v, s2⟩ := vp
    refine coreOpt12_mono s2 _ (by
        unfold coreCascadeMono at hm ⊢
        exact ⟨hm.1,
        hm.2.1,
        hm.2.2.1,
        hm.2.2.2.1,
        hm.2.2.2.2.1,
        hm.2.2.2.2.2.1,
        hm.2.2.2.2.2.2.1,
        hm.2.2.2.2.2.2.2.1,
        hm.2.2.2.2.2.2.2.2.1,
        fun _ => hp,
        by simp [h12],
        by simp [h13],
        by simp [h14]⟩) (by simp) (by simp [h13]) (by simp [h14]) c' h

theorem coreOpt10_mono (s : Bytes) (c : ClientCoreData)
    (hm : coreCascadeMono c)
    (hp : c.serverSelectedProtocol.isSome)
    (h11 : c.desktopPhysicalHeight = none)
    (h12 : c.desktopOrientation = none)
    (h13 : c.desktopScaleFactor = none)
    (h14 : c.deviceScaleFactor = none) :
    ∀ c', parseCoreOpt10 s c = .ok c' → coreCascadeMono c' := by
  intro c' h
  unfold parseCoreOpt10 at h
  cases hr : readU32s s with
  | error e => rw [hr] at h; injection h with h; subst h; exact hm
  | ok vp =>
    rw [hr] at h
    obtain ⟨v, s2⟩ := vp
    refine coreOpt11_mono s2 _ (by
        unfold coreCascadeMono at hm ⊢
        exact ⟨hm.1,
        hm.2.1,
        hm.2.2.1,
        hm.2.2.2.1,
        hm.2.2.2.2.1,
        hm.2.2.2.2.2.1,
        hm.2.2.2.2.2.2.1,
        hm.2.2.2.2.2.2.2.1,
        fun _ => hp,
        by simp [h11],
        by simp [h12],
        by simp [h13],
        by simp [h14]⟩) (by simp) (by simp [h12]) (by simp [h13]) (by simp [h14]) c' h

theorem coreOpt9_mono (s : Bytes) (c : ClientCoreData)
    (hm : coreCascadeMono c)
    (hp : c.connectionType.isSome)
    (h10 : c.desktopPhysicalWidth = none)
    (h11 : c.desktopPhysicalHeight = none)
    (h12 : c.desktopOrientation = none)
    (h13 : c.desktopScaleFactor = none)
    (h14 : c.deviceScaleFactor = none) :
    ∀ c', parseCoreOpt9 s c = .ok c' → coreCascadeMono c' := by
  intro c' h
  unfold parseCoreOpt9 at h
  cases hr : readU32s s with
  | error e => rw [hr] at h; injection h with h; subst h; exact hm
  | ok vp =>
    rw [hr] at h
    obtain ⟨v, s2⟩ := vp
    refine coreOpt10_mono s2 _ (by
        unfold coreCascadeMono at hm ⊢
        exact ⟨hm.1,
        hm.2.1,
        hm.2.2.1,
        hm.2.2.2.1,
        hm.2.2.2.2.1,
        hm.2.2.2.2.2.1,
        hm.2.2.2.2.2.2.1,
        fun _ => hp,
        by simp [h10],
        by simp [h11],
        by simp [h12],
        by simp [h13],
        by simp [h14]⟩) (by simp) (by simp [h11]) (by simp [h12]) (by simp [h13]) (by simp [h14]) c' h

theorem coreOpt8_mono (s : Bytes) (c : ClientCoreData)
    (hm : coreCascadeMono c)
    (hp : c.clientDigProductId.isSome)
    (h9 : c.serverSelectedProtocol = none)
    (h10 : c.desktopPhysicalWidth = none)
    (h11 : c.desktopPhysicalHeight = none)
    (h12 : c.desktopOrientation = none)
    (h13 : c.desktopScaleFactor = none)
    (h14 : c.deviceScaleFactor = none) :
    ∀ c', parseCoreOpt8 s c = .ok c' → coreCascadeMono c' := by
  intro c' h
  unfold parseCoreOpt8 at h
  cases hr : readU8s s with
  | error e => rw [hr] at h; injection h with h; subst h; exact hm
  | ok vp =>
    rw [hr] at h
    obtain ⟨v, s2⟩ := vp
    dsimp only at h
    split at h
    · have hm' : coreCascadeMono { c with connectionType := some v } := by
        unfold coreCascadeMono at hm ⊢
        exact ⟨hm.1,
        hm.2.1,
        hm.2.2.1,
        hm.2.2.2.1,
        hm.2.2.2.2.1,
        hm.2.2.2.2.2.1,
        fun _ => hp,
        by simp [h9],
        by simp [h10],
        by simp [h11],
        by simp [h12],
        by simp [h13],
        by simp [h14]⟩
      cases hq : readStrict 1 s2 with
      | error e => rw [hq] at h; injection h with h; subst h; exact hm'
      | ok pq =>
        rw [hq] at h
        obtain ⟨pad, s3⟩ := pq
        refine coreOpt9_mono s3 _ hm' (by simp) (by simp [h10]) (by simp [h11]) (by simp [h12]) (by simp [h13]) (by simp [h14]) c' h
    · cases h

theorem coreOpt7_mono (s : Bytes) (c : ClientCoreData)
    (hm : coreCascadeMono c)
    (hp : c.earlyCapabilityFlags.isSome)
    (h8 : c.connectionType = none)
    (h9 : c.serverSelectedProtocol = none)
    (h10 : c.desktopPhysicalWidth = none)
    (h11 : c.desktopPhysicalHeight = none)
    (h12 : c.desktopOrientation = none)
    (h13 : c.desktopScaleFactor = none)
    (h14 : c.deviceScaleFactor = none) :
    ∀ c', parseCoreOpt7 s c = .ok c' → coreCascadeMono c' := by
  intro c' h
  unfold parseCoreOpt7 at h
  cases hr : readStrict 64 s with
  | error e => rw [hr] at h; injection h with h; subst h; exact hm
  | ok vp =>
    rw [hr] at h
    obtain ⟨bs, s2⟩ := vp
    refine coreOpt8_mono s2 _ (by
        unfold coreCascadeMono at hm ⊢
        exact ⟨hm.1,
        hm.2.1,
        hm.2.2.1,
        hm.2.2.2.1,
        hm.2.2.2.2.1,
        fun _ => hp,
        by simp [h8],
        by simp [h9],
        by simp [h10],
        by simp [h11],
        by simp [h12],
        by simp [h13],
        by simp [h14]⟩) (by simp) (by simp [h9]) (by simp [h10]) (by simp [h11]) (by simp [h12]) (by simp [h13]) (by simp [h14]) c' h

theorem coreOpt6_mono (s : Bytes) (c : ClientCoreData)
    (hm : coreCascadeMono c)
    (hp : c.supportedColorDepths.isSome)
    (h7 : c.clientDigProductId = none)
    (h8 : c.connectionType = none)
    (h9 : c.serverSelectedProtocol = none)
    (h10 : c.desktopPhysicalWidth = none)
    (h11 : c.desktopPhysicalHeight = none)
    (h12 : c.desktopOrientation = none)
    (h13 : c.desktopScaleFactor = none)
    (h14 : c.deviceScaleFactor = none) :
    ∀ c', parseCoreOpt6 s c = .ok c' → coreCascadeMono c' := by
  intro c' h
  unfold parseCoreOpt6 at h
  cases hr : readU16s s with
  | error e => rw [hr] at h; injection h with h; subst h; exact hm
  | ok vp =>
    rw [hr] at h
    obtain ⟨v, s2⟩ := vp
    refine coreOpt7_mono s2 _ (by
        unfold coreCascadeMono at hm ⊢
        exact ⟨hm.1,
        hm.2.1,
        hm.2.2.1,
        hm.2.2.2.1,
        fun _ => hp,
        by simp [h7],
        by simp [h8],
        by simp [h9],
        by simp [h10],
        by simp [h11],
        by simp [h12],
        by simp [h13],
        by simp [h14]⟩) (by simp) (by simp [h8]) (by simp [h9]) (by simp [h10]) (by simp [h11]) (by simp [h12]) (by simp [h13]) (by simp [h14]) c' h

theorem coreOpt5_mono (s : Bytes) (c : ClientCoreData)
    (hm : coreCascadeMono c)
    (hp : c.highColorDepth.isSome)
    (h6 : c.earlyCapabilityFlags = none)
    (h7 : c.clientDigProductId = none)
    (h8 : c.connectionType = none)
    (h9 : c.serverSelectedProtocol = none)
    (h10 : c.desktopPhysicalWidth = none)
    (h11 : c.desktopPhysicalHeight = none)
    (h12 : c.desktopOrientation = none)
    (h13 : c.desktopScaleFactor = none)
    (h14 : c.deviceScaleFactor = none) :
    ∀ c', parseCoreOpt5 s c = .ok c' → coreCascadeMono c' := by
  intro c' h
  unfold parseCoreOpt5 at h
  cases hr : readU16s s with
  | error e => rw [hr] at h; injection h with h; subst h; exact hm
  | ok vp =>
    rw [hr] at h
    obtain ⟨v, s2⟩ := vp
    refine coreOpt6_mono s2 _ (by
        unfold coreCascadeMono at hm ⊢
        exact ⟨hm.1,
        hm.2.1,
        hm.2.2.1,
        fun _ => hp,
        by simp [h6],
        by simp [h7],
        by simp [h8],
        by simp [h9],
        by simp [h10],
        by simp [h11],
        by simp [h12],
        by simp [h13],
        by simp [h14]⟩) (by simp) (by simp [h7]) (by simp [h8]) (by simp [h9]) (by simp [h10]) (by simp [h11]) (by simp [h12]) (by simp [h13]) (by simp [h14]) c' h

theorem coreOpt4_mono (s : Bytes) (c : ClientCoreData)
    (hm : coreCascadeMono c)
    (hp : c.serialNumber.isSome)
    (h5 : c.supportedColorDepths = none)
    (h6 : c.earlyCapabilityFlags = none)
    (h7 : c.clientDigProductId = none)
    (h8 : c.connectionType = none)
    (h9 : c.serverSelectedProtocol = none)
    (h10 : c.desktopPhysicalWidth = none)
    (h11 : c.desktopPhysicalHeight = none)
    (h12 : c.desktopOrientation = none)
    (h13 : c.desktopScaleFactor = none)
    (h14 : c.deviceScaleFactor = none) :
    ∀ c', parseCoreOpt4 s c = .ok c' → coreCascadeMono c' := by
  intro c' h
  unfold parseCoreOpt4 at h
  cases hr : readU16s s with
  | error e => rw [hr] at h; injection h with h; subst h; exact hm
  | ok vp =>
    rw [hr] at h
    obtain ⟨v, s2⟩ := vp
    refine coreOpt5_mono s2 _ (by
        unfold coreCascadeMono at hm ⊢
        exact ⟨hm.1,
        hm.2.1,
        fun _ => hp,
        by simp [h5],
        by simp [h6],
        by simp [h7],
        by simp [h8],
        by simp [h9],
        by simp [h10],
        by simp [h11],
        by simp [h12],
        by simp [h13],
        by simp [h14]⟩) (by simp) (by simp [h6]) (by simp [h7]) (by simp [h8]) (by simp [h9]) (by simp [h10]) (by simp [h11]) (by simp [h12]) (by simp [h13]) (by simp [h14]) c' h

theorem coreOpt3_mono (s : Bytes) (c : ClientCoreData)
    (hm : coreCascadeMono c)
    (hp : c.clientProductId.isSome)
    (h4 : c.highColorDepth = none)
    (h5 : c.supportedColorDepths = none)
    (h6 : c.earlyCapabilityFlags = none)
    (h7 : c.clientDigProductId = none)
    (h8 : c.connectionType = none)
    (h9 : c.serverSelectedProtocol = none)
    (h10 : c.desktopPhysicalWidth = none)
    (h11 : c.desktopPhysicalHeight = none)
    (h12 : c.desktopOrientation = none)
    (h13 : c.desktopScaleFactor = none)
    (h14 : c.deviceScaleFactor = none) :
    ∀ c', parseCoreOpt3 s c = .ok c' → coreCascadeMono c' := by
  intro c' h
  unfold parseCoreOpt3 at h
  cases hr : readU32s s with
  | error e => rw [hr] at h; injection h with h; subst h; exact hm
  | ok vp =>
    rw [hr] at h
    obtain ⟨v, s2⟩ := vp
    refine coreOpt4_mono s2 _ (by
        unfold coreCascadeMono at hm ⊢
        exact ⟨hm.1,
        fun _ => hp,
        by simp [h4],
        by simp [h5],
        by simp [h6],
        by simp [h7],
        by simp [h8],
        by simp [h9],
        by simp [h10],
        by simp [h11],
        by simp [h12],
        by simp [h13],
        by simp [h14]⟩) (by simp) (by simp [h5]) (by simp [h6]) (by simp [h7]) (by simp [h8]) (by simp [h9]) (by simp [h10]) (by simp [h11]) (by simp [h12]) (by simp [h13]) (by simp [h14]) c' h

theorem coreOpt2_mono (s : Bytes) (c : ClientCoreData)
    (hm : coreCascadeMono c)
    (hp : c.postBeta2ColorDepth.isSome)
    (h3 : c.serialNumber = none)
    (h4 : c.highColorDepth = none)
    (h5 : c.supportedColorDepths = none)
    (h6 : c.earlyCapabilityFlags = none)
    (h7 : c.clientDigProductId = none)
    (h8 : c.connectionType = none)
    (h9 : c.serverSelectedProtocol = none)
    (h10 : c.desktopPhysicalWidth = none)
    (h11 : c.desktopPhysicalHeight = none)
    (h12 : c.desktopOrientation = none)
    (h13 : c.desktopScaleFactor = none)
    (h14 : c.deviceScaleFactor = none) :
    ∀ c', parseCoreOpt2 s c = .ok c' → coreCascadeMono c' := by
  intro c' h
  unfold parseCoreOpt2 at h
  cases hr : readU16s s with
  | error e => rw [hr] at h; injection h with h; subst h; exact hm
  | ok vp =>
    rw [hr] at h
    obtain ⟨v, s2⟩ := vp
    refine coreOpt3_mono s2 _ (by
        unfold coreCascadeMono at hm ⊢
        exact ⟨fun _ => hp,
        by simp [h3],
        by simp [h4],
        by simp [h5],
        by simp [h6],
        by simp [h7],
        by simp [h8],
        by simp [h9],
        by simp [h10],
        by simp [h11],
        by simp [h12],
        by simp [h13],
        by simp [h14]⟩) (by simp) (by simp [h4]) (by simp [h5]) (by simp [h6]) (by simp [h7]) (by simp [h8]) (by simp [h9]) (by simp [h10]) (by simp [h11]) (by simp [h12]) (by simp [h13]) (by simp [h14]) c' h

theorem coreOpt1_mono (s : Bytes) (c : ClientCoreData)
    (h1 : c.postBeta2ColorDepth = none)
    (h2 : c.clientProductId = none)
    (h3 : c.serialNumber = none)
    (h4 : c.highColorDepth = none)
    (h5 : c.supportedColorDepths = none)
    (h6 : c.earlyCapabilityFlags = none)
    (h7 : c.clientDigProductId = none)
    (h8 : c.connectionType = none)
    (h9 : c.serverSelectedProtocol = none)
    (h10 : c.desktopPhysicalWidth = none)
    (h11 : c.desktopPhysicalHeight = none)
    (h12 : c.desktopOrientation = none)
    (h13 : c.desktopScaleFactor = none)
    (h14 : c.deviceScaleFactor = none) :
    ∀ c', parseCoreOpt1 s c = .ok c' → coreCascadeMono c' := by
  intro c' h
  unfold parseCoreOpt1 at h
  cases hr : readU16s s with
  | error e =>
    rw [hr] at h; injection h with h; subst h
    unfold coreCascadeMono
    exact ⟨by simp [h2], by simp [h3], by simp [h4], by simp [h5], by simp [h6], by simp [h7], by simp [h8], by simp [h9], by simp [h10], by simp [h11], by simp [h12], by simp [h13], by simp [h14]⟩
  | ok vp =>
    rw [hr] at h
    obtain ⟨v, s2⟩ := vp
    refine coreOpt2_mono s2 _ (by
        unfold coreCascadeMono
        exact ⟨by simp [h2],
        by simp [h3],
        by simp [h4],
        by simp [h5],
        by simp [h6],
        by simp [h7],
        by simp [h8],
        by simp [h9],
        by simp [h10],
        by simp [h11],
        by simp [h12],
        by simp [h13],
        by simp [h14]⟩) (by simp) (by simp [h3]) (by simp [h4]) (by simp [h5]) (by simp [h6]) (by simp [h7]) (by simp [h8]) (by simp [h9]) (by simp [h10]) (by simp [h11]) (by simp [h12]) (by simp [h13]) (by simp [h14]) c' h

/-- The mandatory part of the client core parse yields a value with every
optional field still absent. -/
theorem parseCoreMandatory_base (s : Bytes) (c : ClientCoreData) (s' : Bytes)
    (h : parseCoreMandatory s = .ok (c, s')) : coreOptAllNone c := by
  unfold parseCoreMandatory at h
  simp only [eBind, ensure] at h
  repeat' split at h
  all_goals cases h
  all_goals simp [coreOptAllNone]

/-- The server security optional group never yields a certificate without the
server random: the random is assigned before the certificate bytes are read. -/
theorem serverSecOptional_mono (s : Bytes) (r : Option Bytes)
    (c : Option ProprietaryCertificate) (h : serverSecOptional s = .ok (r, c)) :
    c.isSome → r.isSome := by
  unfold serverSecOptional at h
  repeat' split at h
  all_goals cases h
  all_goals simp

/-- C6: for the client core, server core and server security optional groups,
a successful parse (of any input, truncated or not) never yields a later
optional field populated while an earlier one of the same group is absent. -/
theorem claim_C6_cascadeMonotone :
    (∀ s core, parseClientCoreData s = .ok core → coreCascadeMono core) ∧
    (∀ s sc, parseServerCoreData s = .ok sc →
      (sc.earlyCapabilityFlags.isSome → sc.clientRequestedProtocols.isSome)) ∧
    (∀ s ss, parseServerSecurityData s = .ok ss →
      (ss.serverCertificate.isSome → ss.serverRandom.isSome)) := by
  refine ⟨?_, ?_, ?_⟩
  · intro s core h
    unfold parseClientCoreData at h
    cases hm : parseCoreMandatory s with
    | error e => rw [hm, eBind_err] at h; cases h
    | ok cs =>
      obtain ⟨c0, s0⟩ := cs
      rw [hm] at h
      simp only [eBind_ok] at h
      obtain ⟨n1, n2, n3, n4, n5, n6, n7, n8, n9, n10, n11, n12, n13, n14⟩ :=
        parseCoreMandatory_base s c0 s0 hm
      exact coreOpt1_mono s0 c0 n1 n2 n3 n4 n5 n6 n7 n8 n9 n10 n11 n12 n13 n14 core h
  · intro s sc h
    unfold parseServerCoreData at h
    simp only [eBind] at h
    repeat' split at h
    all_goals cases h
    all_goals simp
  · intro s ss h
    unfold parseServerSecurityData at h
    cases h1 : readU32s s with
    | error e => rw [h1, eBind_err] at h; cases h
    | ok p1 =>
      obtain ⟨m, s1⟩ := p1
      rw [h1] at h
      simp only [eBind_ok] at h
      by_cases hE : isEncryptionMethod m
      · rw [show ensure (isEncryptionMethod m) .valueErr = .ok () from by simp [ensure, hE]] at h
        simp only [eBind_ok] at h
        cases h2 : readU32s s1 with
        | error e => rw [h2, eBind_err] at h; cases h
        | ok p2 =>
          obtain ⟨l, s2⟩ := p2
          rw [h2] at h
          simp only [eBind_ok] at h
          by_cases hL : isEncryptionLevel l
          · rw [show ensure (isEncryptionLevel l) .valueErr = .ok () from by simp [ensure, hL]] at h
            simp only [eBind_ok] at h
            cases h3 : serverSecOptional s2 with
            | error e => rw [h3, eBind_err] at h; cases h
            | ok rc =>
              obtain ⟨r, cert⟩ := rc
              rw [h3] at h
              simp only [eBind_ok] at h
              cases h
              exact serverSecOptional_mono s2 r cert h3
          · rw [show ensure (isEncryptionLevel l) .valueErr = .error .valueErr from by
                simp [ensure, hL], eBind_err] at h
            cases h
      · rw [show ensure (isEncryptionMethod m) .valueErr = .error .valueErr from by
            simp [ensure, hE], eBind_err] at h
        cases h

set_option maxRecDepth 100000 in
/-- C6 witness: truncating the example core block two bytes into the optional
group yields the first optional field set and every later one absent. -/
theorem claim_C6_witness :
    coreCascadeMono { coreHost with postBeta2ColorDepth := some 0 } :=
  claim_C6_cascadeMonotone.1 (corePayload ++ [0, 0])
    { coreHost with postBeta2ColorDepth := some 0 } (by decide)

/-! ## C7: proprietary-certificate public key round-trip -/

/-- C7: encoding a proprietary-certificate public key and decoding the blob
recovers the identical (modulus, exponent) pair: the wire byte-reversal of the
modulus is applied symmetrically by write and parse. -/
theorem claim_C7_publicKeyRoundtrip (n e : Nat) (hn : 0 < n) (he : e < 4294967296)
    (hlen : (natToBytesBE n).length + 8 < 4294967296) :
    eBind (writePublicKey ⟨n, e⟩) parsePublicKey = .ok ⟨n, e⟩ := by
  have hrl : ((natToBytesBE n).reverse).length = (natToBytesBE n).length :=
    List.length_reverse _
  have hw : writePublicKey ⟨n, e⟩ = .ok (rsa1Magic ++ u32b ((natToBytesBE n).length + 8) ++
      u32b 2048 ++ u32b 255 ++ u32b e ++ (natToBytesBE n).reverse ++ List.replicate 8 0) := by
    unfold writePublicKey
    dsimp only
    rw [hrl, packU32_eq _ hlen]
    simp only [eBind_ok]
    rw [packU32_eq 2048 (by norm_num)]
    simp only [eBind_ok]
    rw [packU32_eq 255 (by norm_num)]
    simp only [eBind_ok]
    rw [packU32_eq e he]
    simp only [eBind_ok]
  rw [hw]
  simp only [eBind_ok]
  unfold parsePublicKey
  simp only [List.append_assoc, rsa1Magic, List.cons_append, List.nil_append, List.drop_succ_cons,
    List.drop_zero]
  rw [readU32p_u32b _ _ hlen]
  simp only [eBind_ok]
  rw [readU32p_u32b 2048 _ (by norm_num)]
  simp only [eBind_ok]
  rw [readU32p_u32b 255 _ (by norm_num)]
  simp only [eBind_ok]
  rw [readU32p_u32b e _ he]
  simp only [eBind_ok]
  have hc : (((natToBytesBE n).length + 8 : Nat) : Int) - 8 = (((natToBytesBE n).reverse).length : Int) := by
    rw [hrl]; push_cast; ring
  rw [hc, readAvail_exact]
  simp only [List.reverse_reverse, natToBytesBE_long]

/-- C7 witness: the pair (3233, 17) survives the encode/decode round-trip. -/
theorem claim_C7_witness :
    eBind (writePublicKey ⟨3233, 17⟩) parsePublicKey = .ok ⟨3233, 17⟩ :=
  claim_C7_publicKeyRoundtrip 3233 17 (by decide) (by decide) (by decide)

/-! ## C8: channel name bound -/

theorem mem_of_mem_dropWhile {p : Nat → Bool} :
    ∀ l : Bytes, ∀ b, b ∈ l.dropWhile p → b ∈ l := by
  intro l
  induction l with
  | nil => intro b hb; simp [List.dropWhile] at hb
  | cons x t ih =>
    intro b hb
    rw [List.dropWhile] at hb
    cases hp : p x with
    | true => rw [hp] at hb; exact List.mem_cons_of_mem x (ih b hb)
    | false => rw [hp] at hb; exact hb

theorem stripNulls_mem (l : Bytes) : ∀ b ∈ stripNulls l, b ∈ l := by
  intro b hb
  unfold stripNulls at hb
  rw [List.mem_reverse] at hb
  have hb2 := mem_of_mem_dropWhile _ b hb
  rw [List.mem_reverse] at hb2
  exact mem_of_mem_dropWhile _ b hb2

theorem writeChannelDefs_long : ∀ defs : List ClientChannelDefinition,
    (∀ ch ∈ defs, ch.options < 4294967296) → (∃ ch ∈ defs, 8 < ch.name.length) →
    writeChannelDefs defs = .error .parsingErr := by
  intro defs
  induction defs with
  | nil => intro _ h; simp at h
  | cons ch rest ih =>
    intro hopt hex
    unfold writeChannelDefs
    by_cases hn : ch.name.length > 8
    · rw [if_pos hn]
    · rw [if_neg hn]
      have hex' : ∃ c ∈ rest, 8 < c.name.length := by
        obtain ⟨c, hc, hlen⟩ := hex
        rcases List.mem_cons.mp hc with hceq | hcr
        · subst hceq; omega
        · exact ⟨c, hcr, hlen⟩
      rw [packU32_eq ch.options (hopt ch (by simp))]
      simp only [eBind_ok]
      rw [ih (fun c hc => hopt c (List.mem_cons_of_mem ch hc)) hex']
      rfl

/-- C8 (counterexample): a channel entry whose 8 raw name bytes are 0xFF parses
with a UnicodeDecodeError: reading does not succeed regardless of content,
because the name bytes are passed through bytes.decode(). -/
theorem claim_C8_counterexample :
    parseClientNetworkData ([1, 0, 0, 0] ++ List.replicate 8 255 ++ [0, 0, 0, 0]) =
      .error .unicodeErr := by decide

/-- C8 (amended): writing a client network block with any channel name longer
than 8 characters fails with the validation error, and reading a channel entry
succeeds on exactly 8 raw name bytes provided the NUL-stripped name bytes
decode (e.g. ASCII) and the payload does not carry the exploit signature;
undecodable name bytes make the read fail instead. -/
theorem claim_C8_amended :
    (∀ d : ClientNetworkData, d.channelDefinitions.length < 4294967296 →
      (∀ ch ∈ d.channelDefinitions, ch.options < 4294967296) →
      (∃ ch ∈ d.channelDefinitions, 8 < ch.name.length) →
      writeClientNetworkData d = .error .parsingErr) ∧
    (∀ (nameBytes : Bytes) (options : Nat), nameBytes.length = 8 →
      (∀ b ∈ nameBytes, b < 128) → options < 4294967296 →
      detectBlueKeepScan ([1, 0, 0, 0] ++ nameBytes ++ u32b options) = false →
      parseClientNetworkData ([1, 0, 0, 0] ++ nameBytes ++ u32b options) =
        .ok ⟨[⟨String.mk ((stripNulls nameBytes).map Char.ofNat), options⟩]⟩) := by
  constructor
  · intro d hcnt hopt hex
    unfold writeClientNetworkData
    rw [packU32_eq _ hcnt]
    simp only [eBind_ok]
    rw [writeChannelDefs_long d.channelDefinitions hopt hex]
    rfl
  · intro nameBytes options hlen hascii hopt hdet
    unfold parseClientNetworkData
    rw [hdet]
    simp only [Bool.false_eq_true, if_false]
    rw [show ([1, 0, 0, 0] ++ nameBytes ++ u32b options : Bytes) =
        u32b 1 ++ (nameBytes ++ u32b options) from by simp [u32b]]
    rw [readU32p_u32b 1 _ (by norm_num)]
    simp only [eBind_ok]
    rw [List.drop_left' (by simp [u32b] : (u32b 1).length = 4)]
    rw [if_neg (by simp [u32b, hlen])]
    unfold readChannelDefs
    rw [List.take_left' hlen, List.drop_left' hlen]
    dsimp only
    rw [utf8Decode_ascii _ (fun b hb => hascii b (stripNulls_mem nameBytes b hb))]
    simp only [eBind_ok]
    rw [show u32b options = u32b options ++ [] from by simp]
    rw [readU32p_u32b options [] hopt]
    simp only [eBind_ok, readChannelDefs]

/-- C8 witness: writing a network block holding the 9-character channel name
"abcdefghi" fails with the validation error. -/
theorem claim_C8_witness :
    writeClientNetworkData ⟨[⟨"abcdefghi", 0⟩]⟩ = .error .parsingErr :=
  claim_C8_amended.1 ⟨[⟨"abcdefghi", 0⟩]⟩ (by decide) (by decide) (by decide)

/-! ## C10: server mandatory-block presence -/

/-- The server loop returns a PDU only once core, security and network are all
recorded: the while condition requires a missing one to keep going, and the
mid-loop break is unreachable (it needs an empty original buffer, on which the
first structure read has already failed). -/
theorem serverLoop_present : ∀ (fuel totalLen : Nat) (s : Bytes) (st pdu : ServerDataPDU),
    (totalLen = 0 → s = []) →
    serverDoParseLoop fuel totalLen s st = .ok pdu →
    pdu.coreData.isSome ∧ pdu.securityData.isSome ∧ pdu.networkData.isSome := by
  intro fuel
  induction fuel with
  | zero =>
    intro totalLen s st pdu _ h
    rw [show serverDoParseLoop 0 totalLen s st = .error .structErr from rfl] at h
    cases h
  | succ fuel ih =>
    intro totalLen s st pdu h0 h
    rw [serverDoParseLoop] at h
    by_cases hc : st.coreData = none ∨ st.securityData = none ∨ st.networkData = none
    · rw [if_pos hc] at h
      cases hp : serverParseStructure s with
      | error e => rw [hp] at h; cases h
      | ok bs =>
        obtain ⟨b, s'⟩ := bs
        rw [hp] at h
        dsimp only at h
        by_cases ht : totalLen = 0
        · exfalso
          rw [h0 ht] at hp
          rw [show serverParseStructure [] = .error .structErr from rfl] at hp
          cases hp
        · rw [if_neg ht] at h
          exact ih totalLen s' _ pdu (fun hq => absurd hq ht) h
    · rw [if_neg hc] at h
      cases h
      push_neg at hc
      obtain ⟨h1, h2, h3⟩ := hc
      exact ⟨Option.ne_none_iff_isSome.mp h1, Option.ne_none_iff_isSome.mp h2,
        Option.ne_none_iff_isSome.mp h3⟩

/-- C10: whenever ServerConnectionParser.doParse returns a ServerDataPDU rather
than raising, the core, security and network blocks are all present; an input
exhausted before all three were seen raises instead. -/
theorem claim_C10_mandatoryPresence (d : Bytes) (pdu : ServerDataPDU)
    (h : serverDoParse d = .ok pdu) :
    pdu.coreData.isSome ∧ pdu.securityData.isSome ∧ pdu.networkData.isSome :=
  serverLoop_present (d.length + 1) d.length d {} pdu
    (fun h0 => List.length_eq_zero.mp h0) h

/-- C10 witness: the demo buffer with core, security and network blocks parses,
and all three slots are populated in the result. -/
theorem claim_C10_witness :
    serverDemoPdu.coreData.isSome ∧ serverDemoPdu.securityData.isSome ∧
      serverDemoPdu.networkData.isSome :=
  claim_C10_mandatoryPresence serverDemoBuf serverDemoPdu (by decide)

/-! ## C2: the client outer-block loop stop condition -/

theorem clientLoop_step (fuel totalLen : Nat) (s s' : Bytes) (st : ClientDataPDU)
    (b : ClientBlock)
    (hcond : s ≠ [] ∧ (st.coreData = none ∨ st.securityData = none ∨
      st.networkData = none ∨ st.clusterData = none))
    (hparse : clientParseStructure s = .ok (b, s'))
    (ht : totalLen ≠ 0) :
    clientDoParseLoop (fuel + 1) totalLen s st =
      clientDoParseLoop fuel totalLen s' (clientRecord st b) := by
  rw [clientDoParseLoop, if_pos hcond, hparse]
  dsimp only
  rw [if_neg ht]

theorem clientLoop_exit (fuel totalLen : Nat) (s : Bytes) (st : ClientDataPDU)
    (hcond : ¬(s ≠ [] ∧ (st.coreData = none ∨ st.securityData = none ∨
      st.networkData = none ∨ st.clusterData = none))) :
    clientDoParseLoop (fuel + 1) totalLen s st = .ok st := by
  rw [clientDoParseLoop, if_neg hcond]

set_option maxRecDepth 100000 in
theorem parseStruct_coreBlock (rest : Bytes) :
    clientParseStructure (coreBlockBytes ++ rest) = .ok (.core coreHost, rest) := by
  have h := clientParseStructure_frame 49153 corePayload rest (by norm_num) (by decide)
  rw [show corePayload.length + 4 = 132 from by decide,
      show clientDispatch 49153 corePayload = .ok (.core coreHost) from by decide,
      eBind_ok] at h
  rw [show coreBlockBytes = u16b 49153 ++ u16b 132 ++ corePayload from by decide]
  exact h

theorem parseStruct_secBlock (rest : Bytes) :
    clientParseStructure (secBlockBytes ++ rest) = .ok (.security ⟨0, 0⟩, rest) := by
  have h := clientParseStructure_frame 49154 (List.replicate 8 0) rest (by norm_num) (by decide)
  rw [show (List.replicate 8 0 : Bytes).length + 4 = 12 from by decide,
      show clientDispatch 49154 (List.replicate 8 0) = .ok (.security ⟨0, 0⟩) from by decide,
      eBind_ok] at h
  rw [show secBlockBytes = u16b 49154 ++ u16b 12 ++ List.replicate 8 0 from by decide]
  exact h

theorem parseStruct_netBlock (rest : Bytes) :
    clientParseStructure (netBlockBytes ++ rest) = .ok (.network ⟨[]⟩, rest) := by
  have h := clientParseStructure_frame 49155 [0, 0, 0, 0] rest (by norm_num) (by decide)
  rw [show ([0, 0, 0, 0] : Bytes).length + 4 = 8 from by decide,
      show clientDispatch 49155 [0, 0, 0, 0] = .ok (.network ⟨[]⟩) from by decide,
      eBind_ok] at h
  rw [show netBlockBytes = u16b 49155 ++ u16b 8 ++ [0, 0, 0, 0] from by decide]
  exact h

theorem parseStruct_clusterBlock (rest : Bytes) :
    clientParseStructure (clusterBlockBytes ++ rest) = .ok (.cluster ⟨0, 0⟩, rest) := by
  have h := clientParseStructure_frame 49156 (List.replicate 8 0) rest (by norm_num) (by decide)
  rw [show (List.replicate 8 0 : Bytes).length + 4 = 12 from by decide,
      show clientDispatch 49156 (List.replicate 8 0) = .ok (.cluster ⟨0, 0⟩) from by decide,
      eBind_ok] at h
  rw [show clusterBlockBytes = u16b 49156 ++ u16b 12 ++ List.replicate 8 0 from by decide]
  exact h

set_option maxRecDepth 100000 in
/-- C2 (counterexample): with a monitor block trailing the four mandatory
blocks, doParse returns without parsing it — the monitor slot stays empty even
though well-formed bytes remained. -/
theorem claim_C2_counterexample :
    clientDoParse (coreBlockBytes ++ secBlockBytes ++ netBlockBytes ++ clusterBlockBytes ++
      monitorBlockBytes) = .ok clientPduFour ∧ clientPduFour.monitorData = none :=
  ⟨by decide, rfl⟩

set_option maxRecDepth 100000 in
/-- C2 (amended): blocks are collected only while one of the four mandatory
blocks is still missing.  Any bytes after the fourth mandatory block are
ignored wholesale (first conjunct, for every trailing byte string), while an
extra block interleaved before the fourth mandatory one is still collected
(second conjunct: monitor before cluster). -/
theorem claim_C2_amended :
    (∀ rest : Bytes, clientDoParse
        (coreBlockBytes ++ secBlockBytes ++ netBlockBytes ++ clusterBlockBytes ++ rest) =
        .ok clientPduFour) ∧
    clientDoParse (coreBlockBytes ++ secBlockBytes ++ netBlockBytes ++ monitorBlockBytes ++
        clusterBlockBytes) = .ok clientPduFive := by
  constructor
  · intro rest
    unfold clientDoParse
    rw [show (coreBlockBytes ++ secBlockBytes ++ netBlockBytes ++ clusterBlockBytes ++ rest) =
        coreBlockBytes ++ (secBlockBytes ++ (netBlockBytes ++ (clusterBlockBytes ++ rest))) from by
      simp [List.append_assoc]]
    rw [show (coreBlockBytes ++ (secBlockBytes ++ (netBlockBytes ++
        (clusterBlockBytes ++ rest)))).length = rest.length + 164 from by
      simp [coreBlockBytes, secBlockBytes, netBlockBytes, clusterBlockBytes, corePayload,
        hostNameBytes]]
    refine Eq.trans (clientLoop_step (rest.length + 164) (rest.length + 164) _ _ {}
      (.core coreHost) ⟨by simp [coreBlockBytes], Or.inl rfl⟩
      (parseStruct_coreBlock _) (by omega)) ?_
    refine Eq.trans (clientLoop_step (rest.length + 163) (rest.length + 164) _ _ _
      (.security ⟨0, 0⟩) ⟨by simp [secBlockBytes], Or.inr (Or.inl rfl)⟩
      (parseStruct_secBlock _) (by omega)) ?_
    refine Eq.trans (clientLoop_step (rest.length + 162) (rest.length + 164) _ _ _
      (.network ⟨[]⟩) ⟨by simp [netBlockBytes], Or.inr (Or.inr (Or.inl rfl))⟩
      (parseStruct_netBlock _) (by omega)) ?_
    refine Eq.trans (clientLoop_step (rest.length + 161) (rest.length + 164) _ _ _
      (.cluster ⟨0, 0⟩) ⟨by simp [clusterBlockBytes], Or.inr (Or.inr (Or.inr rfl))⟩
      (parseStruct_clusterBlock _) (by omega)) ?_
    refine Eq.trans (clientLoop_exit (rest.length + 160) (rest.length + 164) rest _ ?_) ?_
    · rintro ⟨-, h | h | h | h⟩ <;> simp [clientRecord] at h
    · rfl
  · decide

/-! ## C1 amended: the round-trips that do hold -/

theorem readU16p_u16b_nil (v : Nat) (h : v < 65536) : readU16p (u16b v) = .ok (v, []) := by
  have := readU16p_u16b v [] h
  rwa [List.append_nil] at this

theorem readU32p_u32b_nil (v : Nat) (h : v < 4294967296) : readU32p (u32b v) = .ok (v, []) := by
  have := readU32p_u32b v [] h
  rwa [List.append_nil] at this

theorem readU16s_u16b_nil (v : Nat) (h : v < 65536) : readU16s (u16b v) = .ok (v, []) := by
  have := readU16s_u16b v [] h
  rwa [List.append_nil] at this

theorem readU32s_u32b_nil (v : Nat) (h : v < 4294967296) : readU32s (u32b v) = .ok (v, []) := by
  have := readU32s_u32b v [] h
  rwa [List.append_nil] at this

theorem rtClientSecurity (d : ClientSecurityData) (h1 : d.encryptionMethods < 4294967296)
    (h2 : d.extEncryptionMethods < 4294967296) :
    eBind (writeClientSecurityData d) parseClientSecurityData = .ok d := by
  obtain ⟨a, b⟩ := d
  dsimp only at h1 h2
  unfold writeClientSecurityData
  dsimp only
  rw [packU32_eq a h1]
  simp only [eBind_ok]
  rw [packU32_eq b h2]
  simp only [eBind_ok]
  unfold parseClientSecurityData
  rw [readU32p_u32b a _ h1]
  simp only [eBind_ok]
  rw [readU32p_u32b_nil b h2]
  simp only [eBind_ok]

theorem rtClientCluster (d : ClientClusterData) (h1 : d.flags < 4294967296)
    (h2 : d.redirectedSessionID < 4294967296) :
    eBind (writeClientClusterData d) parseClientClusterData = .ok d := by
  obtain ⟨a, b⟩ := d
  dsimp only at h1 h2
  unfold writeClientClusterData
  dsimp only
  rw [packU32_eq a h1]
  simp only [eBind_ok]
  rw [packU32_eq b h2]
  simp only [eBind_ok]
  unfold parseClientClusterData
  rw [readU32p_u32b a _ h1]
  simp only [eBind_ok]
  rw [readU32p_u32b_nil b h2]
  simp only [eBind_ok]

theorem rtClientMessageChannel (d : ClientMessageChannelData) (h1 : d.flags < 4294967296) :
    eBind (writeClientMessageChannelData d) parseClientMessageChannelData = .ok d := by
  obtain ⟨a⟩ := d
  dsimp only at h1
  unfold writeClientMessageChannelData
  dsimp only
  rw [packU32_eq a h1]
  simp only [eBind_ok]
  unfold parseClientMessageChannelData
  rw [readU32p_u32b_nil a h1]
  simp only [eBind_ok]

theorem rtClientMultitransport (d : ClientMultitransportData) (h1 : d.flags < 4294967296) :
    eBind (writeClientMultitransportData d) parseClientMultitransportData = .ok d := by
  obtain ⟨a⟩ := d
  dsimp only at h1
  unfold writeClientMultitransportData
  dsimp only
  rw [packU32_eq a h1]
  simp only [eBind_ok]
  unfold parseClientMultitransportData
  rw [readU32p_u32b_nil a h1]
  simp only [eBind_ok]

theorem rtClientUnused1 (d : ClientUnused1Data) (h1 : d.pad2Octets < 65536) :
    eBind (writeClientUnused1Data d) parseClientUnused1Data = .ok d := by
  obtain ⟨a⟩ := d
  dsimp only at h1
  unfold writeClientUnused1Data
  dsimp only
  rw [packU16_eq a h1]
  simp only [eBind_ok]
  unfold parseClientUnused1Data
  rw [readU16p_u16b_nil a h1]
  simp only [eBind_ok]

theorem monitorAttr_rt (a : ClientMonitorAttribute) (rest : Bytes)
    (h1 : a.physicalWidth < 4294967296) (h2 : a.physicalHeight < 4294967296)
    (h3 : a.orientation < 4294967296) (h4 : a.desktopScaleFactor < 4294967296)
    (h5 : a.deviceScaleFactor < 4294967296) :
    ∃ w, writeClientMonitorAttribute a = .ok w ∧
      parseClientMonitorAttribute (w ++ rest) = .ok (a, rest) := by
  obtain ⟨p1, p2, p3, p4, p5⟩ := a
  dsimp only at h1 h2 h3 h4 h5
  refine ⟨u32b p1 ++ u32b p2 ++ u32b p3 ++ u32b p4 ++ u32b p5, ?_, ?_⟩
  · unfold writeClientMonitorAttribute
    dsimp only
    rw [packU32_eq p1 h1]
    simp only [eBind_ok]
    rw [packU32_eq p2 h2]
    simp only [eBind_ok]
    rw [packU32_eq p3 h3]
    simp only [eBind_ok]
    rw [packU32_eq p4 h4]
    simp only [eBind_ok]
    rw [packU32_eq p5 h5]
    simp only [eBind_ok]
  · unfold parseClientMonitorAttribute
    simp only [List.append_assoc]
    rw [readU32p_u32b p1 _ h1]
    simp only [eBind_ok]
    rw [readU32p_u32b p2 _ h2]
    simp only [eBind_ok]
    rw [readU32p_u32b p3 _ h3]
    simp only [eBind_ok]
    rw [readU32p_u32b p4 _ h4]
    simp only [eBind_ok]
    rw [readU32p_u32b p5 _ h5]
    simp only [eBind_ok]

theorem monitorAttrs_rt : ∀ (l : List ClientMonitorAttribute) (rest : Bytes),
    (∀ a ∈ l, a.physicalWidth < 4294967296 ∧ a.physicalHeight < 4294967296 ∧
      a.orientation < 4294967296 ∧ a.desktopScaleFactor < 4294967296 ∧
      a.deviceScaleFactor < 4294967296) →
    ∃ w, writeMonitorAttrs l = .ok w ∧ parseMonitorAttrs l.length (w ++ rest) = .ok (l, rest) := by
  intro l
  induction l with
  | nil =>
    intro rest _
    exact ⟨[], rfl, rfl⟩
  | cons a t ih =>
    intro rest hb
    obtain ⟨ha1, ha2, ha3, ha4, ha5⟩ := hb a (by simp)
    obtain ⟨wt, hwt, hpt⟩ := ih rest (fun x hx => hb x (List.mem_cons_of_mem a hx))
    obtain ⟨wa, hwa, hpa⟩ := monitorAttr_rt a (wt ++ rest) ha1 ha2 ha3 ha4 ha5
    refine ⟨wa ++ wt, ?_, ?_⟩
    · unfold writeMonitorAttrs
      rw [hwa]
      simp only [eBind_ok]
      rw [hwt]
      simp only [eBind_ok]
    · rw [show (wa ++ wt) ++ rest = wa ++ (wt ++ rest) from by simp]
      show parseMonitorAttrs (t.length + 1) _ = _
      unfold parseMonitorAttrs
      rw [hpa]
      simp only [eBind_ok]
      rw [hpt]
      simp only [eBind_ok]

theorem rtClientMonitor (d : ClientMonitorData) (hf : d.flags < 4294967296)
    (hsz : d.monitorAttributeSize < 4294967296) (hc32 : d.monitorCount < 4294967296)
    (hcnt : d.monitorCount = d.monitorAttributes.length)
    (hb : ∀ a ∈ d.monitorAttributes, a.physicalWidth < 4294967296 ∧
      a.physicalHeight < 4294967296 ∧ a.orientation < 4294967296 ∧
      a.desktopScaleFactor < 4294967296 ∧ a.deviceScaleFactor < 4294967296) :
    eBind (writeClientMonitorData d) parseClientMonitorData = .ok d := by
  obtain ⟨f, asz, cnt, attrs⟩ := d
  dsimp only at hf hsz hc32 hcnt hb
  subst hcnt
  obtain ⟨wA, hwA, hpA⟩ := monitorAttrs_rt attrs [] hb
  unfold writeClientMonitorData
  dsimp only
  rw [packU32_eq f hf]
  simp only [eBind_ok]
  rw [packU32_eq asz hsz]
  simp only [eBind_ok]
  rw [packU32_eq attrs.length hc32]
  simp only [eBind_ok]
  rw [hwA]
  simp only [eBind_ok]
  unfold parseClientMonitorData
  simp only [List.append_assoc]
  rw [readU32p_u32b f _ hf]
  simp only [eBind_ok]
  rw [readU32p_u32b asz _ hsz]
  simp only [eBind_ok]
  rw [show u32b attrs.length ++ wA = u32b attrs.length ++ (wA ++ []) from by simp]
  rw [readU32p_u32b attrs.length _ hc32]
  simp only [eBind_ok]
  rw [hpA]
  simp only [eBind_ok]

theorem rtClientMonitorEx (d : ClientMonitorExData) (hf : d.flags < 4294967296)
    (hsz : d.monitorAttributeSize < 4294967296) (hc32 : d.monitorCount < 4294967296)
    (hcnt : d.monitorCount = d.monitorAttributes.length)
    (hb : ∀ a ∈ d.monitorAttributes, a.physicalWidth < 4294967296 ∧
      a.physicalHeight < 4294967296 ∧ a.orientation < 4294967296 ∧
      a.desktopScaleFactor < 4294967296 ∧ a.deviceScaleFactor < 4294967296) :
    eBind (writeClientMonitorExData d) parseClientMonitorExData = .ok d := by
  obtain ⟨f, asz, cnt, attrs⟩ := d
  dsimp only at hf hsz hc32 hcnt hb
  subst hcnt
  obtain ⟨wA, hwA, hpA⟩ := monitorAttrs_rt attrs [] hb
  unfold writeClientMonitorExData
  dsimp only
  rw [packU32_eq f hf]
  simp only [eBind_ok]
  rw [packU32_eq asz hsz]
  simp only [eBind_ok]
  rw [packU32_eq attrs.length hc32]
  simp only [eBind_ok]
  rw [hwA]
  simp only [eBind_ok]
  unfold parseClientMonitorExData
  simp only [List.append_assoc]
  rw [readU32p_u32b f _ hf]
  simp only [eBind_ok]
  rw [readU32p_u32b asz _ hsz]
  simp only [eBind_ok]
  rw [show u32b attrs.length ++ wA = u32b attrs.length ++ (wA ++ []) from by simp]
  rw [readU32p_u32b attrs.length _ hc32]
  simp only [eBind_ok]
  rw [hpA]
  simp only [eBind_ok]

theorem channels16_rt : ∀ (chs : List Nat) (rest : Bytes), (∀ c ∈ chs, c < 65536) →
    ∃ w, packU16List chs = .ok w ∧ readU16List chs.length (w ++ rest) = .ok (chs, rest) := by
  intro chs
  induction chs with
  | nil =>
    intro rest _
    exact ⟨[], rfl, rfl⟩
  | cons c t ih =>
    intro rest hb
    obtain ⟨wt, hwt, hpt⟩ := ih rest (fun x hx => hb x (List.mem_cons_of_mem c hx))
    refine ⟨u16b c ++ wt, ?_, ?_⟩
    · unfold packU16List
      rw [packU16_eq c (hb c (by simp))]
      simp only [eBind_ok]
      rw [hwt]
      simp only [eBind_ok]
    · rw [show (u16b c ++ wt) ++ rest = u16b c ++ (wt ++ rest) from by simp]
      show readU16List (t.length + 1) _ = _
      unfold readU16List
      rw [readU16p_u16b c _ (hb c (by simp))]
      simp only [eBind_ok]
      rw [hpt]
      simp only [eBind_ok]

theorem rtServerNetwork (d : ServerNetworkData) (hm : d.mcsChannelID < 65536)
    (hcnt : d.channels.length < 65536) (hb : ∀ c ∈ d.channels, c < 65536) :
    eBind (writeServerNetworkData d) parseServerNetworkData = .ok d := by
  obtain ⟨mcs, chs⟩ := d
  dsimp only at hm hcnt hb
  obtain ⟨wC, hwC, hpC⟩ :=
    channels16_rt chs (if chs.length % 2 ≠ 0 then [0, 0] else ([] : Bytes)) hb
  unfold writeServerNetworkData
  dsimp only
  rw [packU16_eq mcs hm]
  simp only [eBind_ok]
  rw [packU16_eq chs.length hcnt]
  simp only [eBind_ok]
  rw [hwC]
  simp only [eBind_ok]
  unfold parseServerNetworkData
  simp only [List.append_assoc]
  rw [readU16p_u16b mcs _ hm]
  simp only [eBind_ok]
  rw [readU16p_u16b chs.length _ hcnt]
  simp only [eBind_ok]
  rw [hpC]
  simp only [eBind_ok]

theorem rtServerCorePresent (v p : Nat) (fOpt : Option Nat) (hv : v < 4294967296)
    (hp : p < 4294967296) (hf : ∀ f, fOpt = some f → f < 4294967296) :
    eBind (writeServerCoreData ⟨v, some p, fOpt⟩) parseServerCoreData =
      .ok ⟨v, some p, fOpt⟩ := by
  cases fOpt with
  | none =>
    unfold writeServerCoreData
    dsimp only
    rw [packU32_eq v hv]
    simp only [eBind_ok]
    rw [show (some p).getD 0 = p from rfl, packU32_eq p hp]
    simp only [eBind_ok]
    unfold parseServerCoreData
    rw [readU32s_u32b v _ hv]
    simp only [eBind_ok]
    rw [readU32s_u32b_nil p hp]
    rfl
  | some f =>
    have hf32 : f < 4294967296 := hf f rfl
    unfold writeServerCoreData
    dsimp only
    rw [packU32_eq v hv]
    simp only [eBind_ok]
    rw [show (some p).getD 0 = p from rfl, packU32_eq p hp]
    simp only [eBind_ok]
    rw [packU32_eq f hf32]
    simp only [eBind_ok]
    unfold parseServerCoreData
    simp only [List.append_assoc]
    rw [readU32s_u32b v _ hv]
    simp only [eBind_ok]
    rw [readU32s_u32b p _ hp]
    dsimp only
    rw [readU32s_u32b_nil f hf32]

theorem rtServerSecurityAbsent (m l : Nat) (hm : isEncryptionMethod m = true)
    (hl : isEncryptionLevel l = true) :
    eBind (writeServerSecurityData ⟨m, l, none, none⟩) parseServerSecurityData =
      .ok ⟨m, l, none, none⟩ := by
  have hm32 : m < 4294967296 := by
    simp [isEncryptionMethod] at hm
    rcases hm with rfl | rfl | rfl | rfl | rfl <;> norm_num
  have hl32 : l < 4294967296 := by
    simp [isEncryptionLevel] at hl
    omega
  unfold writeServerSecurityData
  dsimp only
  rw [packU32_eq m hm32]
  simp only [eBind_ok]
  rw [packU32_eq l hl32]
  simp only [eBind_ok]
  unfold parseServerSecurityData
  rw [readU32s_u32b m _ hm32]
  simp only [eBind_ok]
  rw [show ensure (isEncryptionMethod m) .valueErr = .ok () from by simp [ensure, hm]]
  simp only [eBind_ok]
  rw [readU32s_u32b_nil l hl32]
  simp only [eBind_ok]
  rw [show ensure (isEncryptionLevel l) .valueErr = .ok () from by simp [ensure, hl]]
  simp only [eBind_ok]
  rw [show serverSecOptional [] = .ok (none, none) from rfl]
  simp only [eBind_ok]

theorem rtServerMessageChannel (d : ServerMessageChannelData) (h1 : d.channelId < 65536) :
    eBind (writeServerMessageChannelData d) parseServerMessageChannelData = .ok d := by
  obtain ⟨a⟩ := d
  dsimp only at h1
  unfold writeServerMessageChannelData
  dsimp only
  rw [packU16_eq a h1]
  simp only [eBind_ok]
  unfold parseServerMessageChannelData
  rw [readU16s_u16b_nil a h1]
  simp only [eBind_ok]

theorem rtServerMultitransport (d : ServerMultitransportData) (h1 : d.flags < 4294967296) :
    eBind (writeServerMultitransportData d) parseServerMultitransportData = .ok d := by
  obtain ⟨a⟩ := d
  dsimp only at h1
  unfold writeServerMultitransportData
  dsimp only
  rw [packU32_eq a h1]
  simp only [eBind_ok]
  unfold parseServerMultitransportData
  rw [readU32s_u32b_nil a h1]
  simp only [eBind_ok]

theorem channelId_rt (cbid chId : Nat) (rest : Bytes) (hc : cbid ≤ 2)
    (hid : chId < cbidBound cbid) :
    ∃ w, writeChannelId cbid chId = .ok w ∧
      readChannelId (w ++ rest) cbid = .ok (chId, rest) := by
  interval_cases cbid
  · exact ⟨[chId], by simp [writeChannelId, packU8_eq chId hid],
      by simp [readChannelId, readU8p]⟩
  · exact ⟨u16b chId, by simp [writeChannelId, packU16_eq chId hid],
      by simp [readChannelId, readU16p_u16b chId rest hid]⟩
  · exact ⟨u32b chId, by simp [writeChannelId, packU32_eq chId hid],
      by simp [readChannelId, readU32p_u32b chId rest hid]⟩

theorem length_rt (sp ln : Nat) (rest : Bytes) (hs : sp ≤ 2) (hln : ln < cbidBound sp) :
    ∃ w, writeLength sp ln = .ok w ∧ readLength (w ++ rest) sp = .ok (ln, rest) := by
  interval_cases sp
  · exact ⟨[ln], by simp [writeLength, packU8_eq ln hln], by simp [readLength, readU8p]⟩
  · exact ⟨u16b ln, by simp [writeLength, packU16_eq ln hln],
      by simp [readLength, readU16p_u16b ln rest hln]⟩
  · exact ⟨u32b ln, by simp [writeLength, packU32_eq ln hln],
      by simp [readLength, readU32p_u32b ln rest hln]⟩

theorem rtDynDataPlain (cbid sp chId : Nat) (payload : Bytes) (hc : cbid ≤ 2) (hs : sp ≤ 3)
    (hid : chId < cbidBound cbid) :
    ∃ w, dynWrite (.dataPlain cbid sp chId payload) = .ok w ∧
      dynDoParse w = .ok (.dataPlain cbid sp chId payload) := by
  obtain ⟨idB, hwid, hrid⟩ := channelId_rt cbid chId payload hc hid
  obtain ⟨hlt, e1, e2, e3⟩ := headerFields cbid (by omega) sp (by omega) 3 (by omega)
  refine ⟨(cbid ||| sp <<< 2 ||| 3 <<< 4) :: (idB ++ payload), ?_, ?_⟩
  · unfold dynWrite
    simp only [DynPdu.cbid, DynPdu.sp, DynPdu.cmdCode]
    rw [packU8_eq _ hlt]
    simp only [eBind_ok]
    rw [hwid]
    simp only [eBind_ok]
    simp
  · simp only [dynDoParse, readU8p_cons, e1, e2, e3]
    simp [hrid]

theorem rtDynDataCompressed (cbid sp chId : Nat) (payload : Bytes) (hc : cbid ≤ 2) (hs : sp ≤ 3)
    (hid : chId < cbidBound cbid) :
    ∃ w, dynWrite (.dataCompressed cbid sp chId payload) = .ok w ∧
      dynDoParse w = .ok (.dataCompressed cbid sp chId payload) := by
  obtain ⟨idB, hwid, hrid⟩ := channelId_rt cbid chId payload hc hid
  obtain ⟨hlt, e1, e2, e3⟩ := headerFields cbid (by omega) sp (by omega) 7 (by omega)
  refine ⟨(cbid ||| sp <<< 2 ||| 7 <<< 4) :: (idB ++ payload), ?_, ?_⟩
  · unfold dynWrite
    simp only [DynPdu.cbid, DynPdu.sp, DynPdu.cmdCode]
    rw [packU8_eq _ hlt]
    simp only [eBind_ok]
    rw [hwid]
    simp only [eBind_ok]
    simp
  · simp only [dynDoParse, readU8p_cons, e1, e2, e3]
    simp [hrid]

theorem rtDynClose (cbid sp chId : Nat) (hc : cbid ≤ 2) (hs : sp ≤ 3)
    (hid : chId < cbidBound cbid) :
    ∃ w, dynWrite (.closeChannel cbid sp chId) = .ok w ∧
      dynDoParse w = .ok (.closeChannel cbid sp chId) := by
  obtain ⟨idB, hwid, hrid⟩ := channelId_rt cbid chId [] hc hid
  rw [List.append_nil] at hrid
  obtain ⟨hlt, e1, e2, e3⟩ := headerFields cbid (by omega) sp (by omega) 4 (by omega)
  refine ⟨(cbid ||| sp <<< 2 ||| 4 <<< 4) :: idB, ?_, ?_⟩
  · unfold dynWrite
    simp only [DynPdu.cbid, DynPdu.sp, DynPdu.cmdCode]
    rw [packU8_eq _ hlt]
    simp only [eBind_ok]
    rw [hwid]
    simp only [eBind_ok]
    simp
  · simp only [dynDoParse, readU8p_cons, e1, e2, e3]
    simp [hrid]

theorem rtDynDataFirst (cbid sp chId ln : Nat) (payload : Bytes) (hc : cbid ≤ 2) (hs : sp ≤ 2)
    (hid : chId < cbidBound cbid) (hln : ln < cbidBound sp) :
    ∃ w, dynWrite (.dataFirst cbid sp chId ln payload) = .ok w ∧
      dynDoParse w = .ok (.dataFirst cbid sp chId ln payload) := by
  obtain ⟨lenB, hwl, hrl⟩ := length_rt sp ln payload hs hln
  obtain ⟨idB, hwid, hrid⟩ := channelId_rt cbid chId (lenB ++ payload) hc hid
  obtain ⟨hlt, e1, e2, e3⟩ := headerFields cbid (by omega) sp (by omega) 2 (by omega)
  refine ⟨(cbid ||| sp <<< 2 ||| 2 <<< 4) :: (idB ++ (lenB ++ payload)), ?_, ?_⟩
  · unfold dynWrite
    simp only [DynPdu.cbid, DynPdu.sp, DynPdu.cmdCode]
    rw [packU8_eq _ hlt]
    simp only [eBind_ok]
    rw [hwid]
    simp only [eBind_ok]
    rw [hwl]
    simp only [eBind_ok]
    simp
  · simp only [dynDoParse, readU8p_cons, e1, e2, e3]
    simp [hrid, hrl]

theorem rtDynDataFirstCompressed (cbid sp chId ln : Nat) (payload : Bytes)
    (hc : cbid ≤ 2) (hs : sp ≤ 2) (hid : chId < cbidBound cbid) (hln : ln < cbidBound sp) :
    ∃ w, dynWrite (.dataFirstCompressed cbid sp chId ln payload) = .ok w ∧
      dynDoParse w = .ok (.dataFirstCompressed cbid sp chId ln payload) := by
  obtain ⟨lenB, hwl, hrl⟩ := length_rt sp ln payload hs hln
  obtain ⟨idB, hwid, hrid⟩ := channelId_rt cbid chId (lenB ++ payload) hc hid
  obtain ⟨hlt, e1, e2, e3⟩ := headerFields cbid (by omega) sp (by omega) 6 (by omega)
  refine ⟨(cbid ||| sp <<< 2 ||| 6 <<< 4) :: (idB ++ (lenB ++ payload)), ?_, ?_⟩
  · unfold dynWrite
    simp only [DynPdu.cbid, DynPdu.sp, DynPdu.cmdCode]
    rw [packU8_eq _ hlt]
    simp only [eBind_ok]
    rw [hwid]
    simp only [eBind_ok]
    rw [hwl]
    simp only [eBind_ok]
    simp
  · simp only [dynDoParse, readU8p_cons, e1, e2, e3]
    simp [hrid, hrl]

/-- C1 (amended): parse-after-write is the identity on the sub-block types and
dynamic-channel variants where the code honors it: the simple fixed-field
client blocks, monitor blocks with a consistent count, the server blocks (core
with clientRequestedProtocols present, security with the optional group
absent, network, message-channel, multitransport), and the dynamic-channel
data/close variants.  The excluded cases are refuted by the counterexample and
the analysis in the results. -/
theorem claim_C1_roundtripAmended :
    (∀ d : ClientSecurityData, d.encryptionMethods < 4294967296 →
      d.extEncryptionMethods < 4294967296 →
      eBind (writeClientSecurityData d) parseClientSecurityData = .ok d) ∧
    (∀ d : ClientClusterData, d.flags < 4294967296 → d.redirectedSessionID < 4294967296 →
      eBind (writeClientClusterData d) parseClientClusterData = .ok d) ∧
    (∀ d : ClientMessageChannelData, d.flags < 4294967296 →
      eBind (writeClientMessageChannelData d) parseClientMessageChannelData = .ok d) ∧
    (∀ d : ClientMultitransportData, d.flags < 4294967296 →
      eBind (writeClientMultitransportData d) parseClientMultitransportData = .ok d) ∧
    (∀ d : ClientUnused1Data, d.pad2Octets < 65536 →
      eBind (writeClientUnused1Data d) parseClientUnused1Data = .ok d) ∧
    (∀ d : ClientMonitorData, d.flags < 4294967296 → d.monitorAttributeSize < 4294967296 →
      d.monitorCount < 4294967296 → d.monitorCount = d.monitorAttributes.length →
      (∀ a ∈ d.monitorAttributes, a.physicalWidth < 4294967296 ∧
        a.physicalHeight < 4294967296 ∧ a.orientation < 4294967296 ∧
        a.desktopScaleFactor < 4294967296 ∧ a.deviceScaleFactor < 4294967296) →
      eBind (writeClientMonitorData d) parseClientMonitorData = .ok d) ∧
    (∀ d : ClientMonitorExData, d.flags < 4294967296 → d.monitorAttributeSize < 4294967296 →
      d.monitorCount < 4294967296 → d.monitorCount = d.monitorAttributes.length →
      (∀ a ∈ d.monitorAttributes, a.physicalWidth < 4294967296 ∧
        a.physicalHeight < 4294967296 ∧ a.orientation < 4294967296 ∧
        a.desktopScaleFactor < 4294967296 ∧ a.deviceScaleFactor < 4294967296) →
      eBind (writeClientMonitorExData d) parseClientMonitorExData = .ok d) ∧
    (∀ d : ServerNetworkData, d.mcsChannelID < 65536 → d.channels.length < 65536 →
      (∀ c ∈ d.channels, c < 65536) →
      eBind (writeServerNetworkData d) parseServerNetworkData = .ok d) ∧
    (∀ (v p : Nat) (fOpt : Option Nat), v < 4294967296 → p < 4294967296 →
      (∀ f, fOpt = some f → f < 4294967296) →
      eBind (writeServerCoreData ⟨v, some p, fOpt⟩) parseServerCoreData =
        .ok ⟨v, some p, fOpt⟩) ∧
    (∀ m l : Nat, isEncryptionMethod m = true → isEncryptionLevel l = true →
      eBind (writeServerSecurityData ⟨m, l, none, none⟩) parseServerSecurityData =
        .ok ⟨m, l, none, none⟩) ∧
    (∀ d : ServerMessageChannelData, d.channelId < 65536 →
      eBind (writeServerMessageChannelData d) parseServerMessageChannelData = .ok d) ∧
    (∀ d : ServerMultitransportData, d.flags < 4294967296 →
      eBind (writeServerMultitransportData d) parseServerMultitransportData = .ok d) ∧
    (∀ (cbid sp chId : Nat) (payload : Bytes), cbid ≤ 2 → sp ≤ 3 → chId < cbidBound cbid →
      ∃ w, dynWrite (.dataPlain cbid sp chId payload) = .ok w ∧
        dynDoParse w = .ok (.dataPlain cbid sp chId payload)) ∧
    (∀ (cbid sp chId : Nat) (payload : Bytes), cbid ≤ 2 → sp ≤ 3 → chId < cbidBound cbid →
      ∃ w, dynWrite (.dataCompressed cbid sp chId payload) = .ok w ∧
        dynDoParse w = .ok (.dataCompressed cbid sp chId payload)) ∧
    (∀ cbid sp chId : Nat, cbid ≤ 2 → sp ≤ 3 → chId < cbidBound cbid →
      ∃ w, dynWrite (.closeChannel cbid sp chId) = .ok w ∧
        dynDoParse w = .ok (.closeChannel cbid sp chId)) ∧
    (∀ (cbid sp chId ln : Nat) (payload : Bytes), cbid ≤ 2 → sp ≤ 2 →
      chId < cbidBound cbid → ln < cbidBound sp →
      ∃ w, dynWrite (.dataFirst cbid sp chId ln payload) = .ok w ∧
        dynDoParse w = .ok (.dataFirst cbid sp chId ln payload)) ∧
    (∀ (cbid sp chId ln : Nat) (payload : Bytes), cbid ≤ 2 → sp ≤ 2 →
      chId < cbidBound cbid → ln < cbidBound sp →
      ∃ w, dynWrite (.dataFirstCompressed cbid sp chId ln payload) = .ok w ∧
        dynDoParse w = .ok (.dataFirstCompressed cbid sp chId ln payload)) :=
  ⟨rtClientSecurity, rtClientCluster, rtClientMessageChannel, rtClientMultitransport,
   rtClientUnused1, rtClientMonitor, rtClientMonitorEx, rtServerNetwork,
   rtServerCorePresent, rtServerSecurityAbsent, rtServerMessageChannel,
   rtServerMultitransport, rtDynDataPlain, rtDynDataCompressed, rtDynClose,
   rtDynDataFirst, rtDynDataFirstCompressed⟩

/-- C1 witness: the amended round-trip at the concrete client security value
(3, 5). -/
theorem claim_C1_witness :
    eBind (writeClientSecurityData ⟨3, 5⟩) parseClientSecurityData = .ok ⟨3, 5⟩ :=
  claim_C1_roundtripAmended.1 ⟨3, 5⟩ (by decide) (by decide)

end PyRdp
